import Mathlib

/-!
Verification of the Kubewise resource-agent against its specification.

The Rust sources are shallowly embedded: machine integers (`u32`, `u64`,
`i64`, `usize`) become `ℕ` / `ℤ`, floating point values (`f32`, `f64`)
become exact rationals `ℚ` with explicit floor where the code casts a
float to an integer, fallible code returns `Option` / `Except`, and
stateful code is explicit state passing.  Each definition mirrors the
source function of the same name.
-/

/-- Rust's `clamp(lo, hi)` on numbers (for `lo ≤ hi`). -/
def clampQ (x lo hi : ℚ) : ℚ := min (max x lo) hi

/-! ## predictor/output.rs -/

/-- `MEMORY_BUFFER_PERCENT : f64 = 0.20` -/
def MEMORY_BUFFER_PERCENT : ℚ := 1/5

/-- `MIN_MEMORY_BYTES : u64 = 64 * 1024 * 1024` -/
def MIN_MEMORY_BYTES : ℕ := 64 * 1024 * 1024

/-- `MIN_CPU_MILLICORES : u32 = 10` -/
def MIN_CPU_MILLICORES : ℕ := 10

/-- `MAX_CPU_CORES : f32 = 16.0` -/
def MAX_CPU_CORES : ℚ := 16

/-- `MAX_MEMORY_GB : f64 = 64.0` -/
def MAX_MEMORY_GB : ℚ := 64

/-- `OutputConfig` from `predictor/output.rs`. -/
structure OutputConfig where
  memory_buffer_percent : ℚ
  min_memory_bytes : ℕ
  min_cpu_millicores : ℕ
  low_confidence_threshold : ℚ

/-- `impl Default for OutputConfig`. -/
def OutputConfig.default : OutputConfig :=
  { memory_buffer_percent := MEMORY_BUFFER_PERCENT
    min_memory_bytes := MIN_MEMORY_BYTES
    min_cpu_millicores := MIN_CPU_MILLICORES
    low_confidence_threshold := 7/10 }

/-- `ResourceProfile` from `models.rs`. -/
structure ResourceProfile where
  cpu_request_millicores : ℕ
  cpu_limit_millicores : ℕ
  memory_request_bytes : ℕ
  memory_limit_bytes : ℕ
  confidence : ℚ
  model_version : String
  generated_at : ℤ

namespace OutputFormatter

/-- `OutputFormatter::denormalize_cpu`: clamp to `[0,1]`, scale to
millicores, truncate (`as u32`). -/
def denormalize_cpu (normalized : ℚ) : ℕ :=
  ⌊clampQ normalized 0 1 * MAX_CPU_CORES * 1000⌋.toNat

/-- `OutputFormatter::denormalize_memory`: clamp to `[0,1]`, scale to
bytes, truncate (`as u64`). -/
def denormalize_memory (normalized : ℚ) : ℕ :=
  ⌊clampQ normalized 0 1 * MAX_MEMORY_GB * 1024 * 1024 * 1024⌋.toNat

/-- `OutputFormatter::apply_memory_buffer`: add the truncated buffer with
`u64::saturating_add`. -/
def apply_memory_buffer (cfg : OutputConfig) (memory_bytes : ℕ) : ℕ :=
  min (memory_bytes + ⌊(memory_bytes : ℚ) * cfg.memory_buffer_percent⌋.toNat)
    (2 ^ 64 - 1)

/-- `OutputFormatter::calculate_confidence`. -/
def calculate_confidence (raw_confidence : ℚ) : ℚ :=
  clampQ raw_confidence 0 1

/-- `OutputFormatter::format`.  `raw` is the raw model output vector
`[cpu_req, cpu_lim, mem_req, mem_lim, confidence]`; `now` stands for
`chrono::Utc::now().timestamp()`. -/
def format (cfg : OutputConfig) (raw : Fin 5 → ℚ) (model_version : String)
    (now : ℤ) : ResourceProfile :=
  let cpu_request := denormalize_cpu (raw 0)
  let cpu_limit := denormalize_cpu (raw 1)
  let mem_request := denormalize_memory (raw 2)
  let mem_limit := denormalize_memory (raw 3)
  let raw_confidence := raw 4
  let mem_limit_with_buffer := apply_memory_buffer cfg mem_limit
  let final_cpu_limit := max (max cpu_limit cpu_request) cfg.min_cpu_millicores
  let final_mem_limit := max (max mem_limit_with_buffer mem_request) cfg.min_memory_bytes
  { cpu_request_millicores := max cpu_request cfg.min_cpu_millicores
    cpu_limit_millicores := final_cpu_limit
    memory_request_bytes := max mem_request cfg.min_memory_bytes
    memory_limit_bytes := final_mem_limit
    confidence := calculate_confidence raw_confidence
    model_version := model_version
    generated_at := now }

end OutputFormatter

/-! ## models.rs: ContainerMetrics -/

/-- `ContainerMetrics` from `models.rs` (floats as exact rationals). -/
structure ContainerMetrics where
  container_id : String
  pod_name : String
  namespace_ : String
  deployment : Option String
  timestamp : ℤ
  cpu_usage_cores : ℚ
  cpu_throttled_periods : ℕ
  memory_usage_bytes : ℕ
  memory_working_set_bytes : ℕ
  memory_cache_bytes : ℕ
  network_rx_bytes : ℕ
  network_tx_bytes : ℕ
deriving DecidableEq, Repr

/-! ## sync/buffer.rs -/

/-- `BufferConfig` (the persistence path and flush interval are I/O
configuration; the disk file itself is modelled explicitly in the
save/load functions below). -/
structure BufferConfig where
  max_retention : ℕ
  max_size : ℕ
  flush_interval : ℕ
deriving DecidableEq

/-- `BufferConfig::default`: 24 h retention, 100 000 entries. -/
def BufferConfig.default : BufferConfig :=
  { max_retention := 24 * 60 * 60, max_size := 100000, flush_interval := 60 }

/-- `TimestampedMetrics`: metrics plus the `SystemTime` (seconds) at which
they were buffered. -/
structure TimestampedMetrics where
  metrics : ContainerMetrics
  buffered_at : ℤ
deriving DecidableEq

/-- `MetricsBuffer`: the `VecDeque` is a list whose head is the front. -/
structure MetricsBuffer where
  buffer : List TimestampedMetrics
  config : BufferConfig
  dirty : Bool
deriving DecidableEq

namespace MetricsBuffer

/-- `MetricsBuffer::new`. -/
def new (max_retention max_size : ℕ) : MetricsBuffer :=
  { buffer := []
    config := { BufferConfig.default with max_retention := max_retention, max_size := max_size }
    dirty := false }

/-- `MetricsBuffer::with_config`. -/
def with_config (config : BufferConfig) : MetricsBuffer :=
  { buffer := [], config := config, dirty := false }

/-- The `while self.buffer.len() >= self.config.max_size { self.buffer.pop_front(); }`
loop at the top of `push`.  (For `max_size = 0` and an empty deque the
Rust loop never terminates — `pop_front` is a no-op there — so the model
returns the empty deque; theorems about `push` assume `0 < max_size`.) -/
def evictToCapacity (max_size : ℕ) : List TimestampedMetrics → List TimestampedMetrics
  | [] => []
  | x :: t => if max_size ≤ (x :: t).length then evictToCapacity max_size t else x :: t

/-- `MetricsBuffer::evict_expired`: pop front entries whose `buffered_at`
is before `now - max_retention`. -/
def evict_expired (now : ℤ) (b : MetricsBuffer) : MetricsBuffer :=
  { b with
    buffer := b.buffer.dropWhile (fun e => e.buffered_at < now - (b.config.max_retention : ℤ))
    dirty := b.dirty }

/-- `MetricsBuffer::push` (`now` stands for `SystemTime::now()`). -/
def push (now : ℤ) (metrics : ContainerMetrics) (b : MetricsBuffer) : MetricsBuffer :=
  let b1 := { b with buffer := evictToCapacity b.config.max_size b.buffer }
  let b2 := evict_expired now b1
  { b2 with buffer := b2.buffer ++ [{ metrics := metrics, buffered_at := now }], dirty := true }

/-- `MetricsBuffer::drain`. -/
def drain (b : MetricsBuffer) : List ContainerMetrics × MetricsBuffer :=
  (b.buffer.map (·.metrics), { b with buffer := [], dirty := true })

/-- `MetricsBuffer::drain_batch`: removes and returns the first
`min limit len` entries. -/
def drain_batch (limit : ℕ) (b : MetricsBuffer) : List ContainerMetrics × MetricsBuffer :=
  ((b.buffer.take limit).map (·.metrics), { b with buffer := b.buffer.drop limit, dirty := true })

/-- `MetricsBuffer::len`. -/
def len (b : MetricsBuffer) : ℕ := b.buffer.length

end MetricsBuffer

/-- A JSON value, at the AST level (serde_json's text layer is an
external crate; the derived `Serialize`/`Deserialize` field mapping is
modelled below). -/
inductive JVal where
  | jnull : JVal
  | jbool : Bool → JVal
  | jnum : ℚ → JVal
  | jstr : String → JVal
  | jarr : List JVal → JVal
  | jobj : List (String × JVal) → JVal

/-- Field lookup in a JSON object. -/
def jLookup (fields : List (String × JVal)) (key : String) : Option JVal :=
  (fields.find? (fun p => p.1 = key)).map (·.2)

/-- Deserialize a `String`. -/
def jStr? : JVal → Option String
  | .jstr s => some s
  | _ => none

/-- Deserialize an `f32`/`f64`. -/
def jNum? : JVal → Option ℚ
  | .jnum q => some q
  | _ => none

/-- Deserialize an `i64` (the number must be an integer). -/
def jInt? : JVal → Option ℤ
  | .jnum q => if q.den = 1 then some q.num else none
  | _ => none

/-- Deserialize a `u64` (integer, non-negative). -/
def jNat? : JVal → Option ℕ
  | .jnum q => if q.den = 1 then (if 0 ≤ q.num then some q.num.toNat else none) else none
  | _ => none

/-- Deserialize an `Option<String>` (`null` or a string). -/
def jOptStr? : JVal → Option (Option String)
  | .jnull => some none
  | .jstr s => some (some s)
  | _ => none

/-- The derived `Serialize` for `ContainerMetrics`: a JSON object with
one entry per field, in declaration order. -/
def encodeCM (m : ContainerMetrics) : JVal :=
  .jobj
    [("container_id", .jstr m.container_id),
     ("pod_name", .jstr m.pod_name),
     ("namespace", .jstr m.namespace_),
     ("deployment", match m.deployment with | none => .jnull | some d => .jstr d),
     ("timestamp", .jnum (m.timestamp : ℚ)),
     ("cpu_usage_cores", .jnum m.cpu_usage_cores),
     ("cpu_throttled_periods", .jnum (m.cpu_throttled_periods : ℚ)),
     ("memory_usage_bytes", .jnum (m.memory_usage_bytes : ℚ)),
     ("memory_working_set_bytes", .jnum (m.memory_working_set_bytes : ℚ)),
     ("memory_cache_bytes", .jnum (m.memory_cache_bytes : ℚ)),
     ("network_rx_bytes", .jnum (m.network_rx_bytes : ℚ)),
     ("network_tx_bytes", .jnum (m.network_tx_bytes : ℚ))]

/-- The derived `Deserialize` for `ContainerMetrics`. -/
def decodeCM : JVal → Option ContainerMetrics
  | .jobj fields => do
    let container_id ← jLookup fields "container_id" >>= jStr?
    let pod_name ← jLookup fields "pod_name" >>= jStr?
    let namespace_ ← jLookup fields "namespace" >>= jStr?
    let deployment ← jLookup fields "deployment" >>= jOptStr?
    let timestamp ← jLookup fields "timestamp" >>= jInt?
    let cpu_usage_cores ← jLookup fields "cpu_usage_cores" >>= jNum?
    let cpu_throttled_periods ← jLookup fields "cpu_throttled_periods" >>= jNat?
    let memory_usage_bytes ← jLookup fields "memory_usage_bytes" >>= jNat?
    let memory_working_set_bytes ← jLookup fields "memory_working_set_bytes" >>= jNat?
    let memory_cache_bytes ← jLookup fields "memory_cache_bytes" >>= jNat?
    let network_rx_bytes ← jLookup fields "network_rx_bytes" >>= jNat?
    let network_tx_bytes ← jLookup fields "network_tx_bytes" >>= jNat?
    some
      { container_id := container_id
        pod_name := pod_name
        namespace_ := namespace_
        deployment := deployment
        timestamp := timestamp
        cpu_usage_cores := cpu_usage_cores
        cpu_throttled_periods := cpu_throttled_periods
        memory_usage_bytes := memory_usage_bytes
        memory_working_set_bytes := memory_working_set_bytes
        memory_cache_bytes := memory_cache_bytes
        network_rx_bytes := network_rx_bytes
        network_tx_bytes := network_tx_bytes }
  | _ => none

/-- `MetricsBuffer::save_to_disk`: serialize the buffered metrics (in
order, without the `buffered_at` stamps) as a JSON array; the
temp-file-and-rename dance is an atomic write of this value. -/
def MetricsBuffer.save_to_disk (b : MetricsBuffer) : JVal :=
  .jarr ((b.buffer.map (·.metrics)).map encodeCM)

/-- `MetricsBuffer::load_from_disk`: deserialize a JSON array of
`ContainerMetrics` and push each onto the buffer with
`buffered_at = now`. -/
def MetricsBuffer.load_from_disk (data : JVal) (now : ℤ) (b : MetricsBuffer) :
    Option MetricsBuffer :=
  match data with
  | .jarr items =>
    match items.mapM decodeCM with
    | some metrics =>
      some { b with
        buffer := b.buffer ++ metrics.map (fun m => { metrics := m, buffered_at := now }) }
    | none => none
  | _ => none

/-- `OfflineBufferManager`. -/
structure OfflineBufferManager where
  buffer : MetricsBuffer
  offline : Bool
  offline_entries : ℕ
deriving DecidableEq

namespace OfflineBufferManager

/-- `OfflineBufferManager::new`. -/
def new (config : BufferConfig) : OfflineBufferManager :=
  { buffer := MetricsBuffer.with_config config, offline := false, offline_entries := 0 }

/-- `OfflineBufferManager::go_offline`. -/
def go_offline (m : OfflineBufferManager) : OfflineBufferManager :=
  if ¬m.offline then { m with offline := true, offline_entries := 0 } else m

/-- `OfflineBufferManager::go_online`. -/
def go_online (m : OfflineBufferManager) : OfflineBufferManager :=
  if m.offline then { m with offline := false } else m

/-- `OfflineBufferManager::buffer_if_offline`. -/
def buffer_if_offline (now : ℤ) (metrics : ContainerMetrics) (m : OfflineBufferManager) :
    Bool × OfflineBufferManager :=
  if m.offline then
    (true, { m with buffer := m.buffer.push now metrics
                    offline_entries := m.offline_entries + 1 })
  else (false, m)

/-- `OfflineBufferManager::drain_batch_for_sync`. -/
def drain_batch_for_sync (limit : ℕ) (m : OfflineBufferManager) :
    List ContainerMetrics × OfflineBufferManager :=
  let (xs, b) := m.buffer.drain_batch limit
  (xs, { m with buffer := b })

/-- `OfflineBufferManager::pending_sync_count`. -/
def pending_sync_count (m : OfflineBufferManager) : ℕ := m.buffer.len

end OfflineBufferManager

/-! ## sync/model_update.rs -/

/-- `ModelUpdateConfig`. -/
structure ModelUpdateConfig where
  model_dir : String
  update_window_start : ℕ
  update_window_end : ℕ
  poll_interval : ℕ
  max_model_size : ℕ
  versions_to_keep : ℕ
  max_deviation_threshold : ℚ

/-- `impl Default for ModelUpdateConfig`. -/
def ModelUpdateConfig.default : ModelUpdateConfig :=
  { model_dir := "/var/lib/predictor/models"
    update_window_start := 2
    update_window_end := 4
    poll_interval := 3600
    max_model_size := 100 * 1024
    versions_to_keep := 5
    max_deviation_threshold := 1/5 }

/-- The piece of the protobuf `ModelMetadata` used by `apply_update`. -/
structure ModelMetadata where
  validation_accuracy : ℚ

/-- The protobuf `ModelResponse` (model weights as a byte list). -/
structure ModelResponse where
  update_available : Bool
  new_version : String
  model_weights : List ℕ
  checksum : String
  metadata : Option ModelMetadata

/-- `ModelVersion`. -/
structure ModelVersion where
  version : String
  path : String
  checksum : String
  size_bytes : ℕ
  validation_accuracy : Option ℚ
  downloaded_at : ℤ
deriving DecidableEq

/-- The mutable state of a `ModelUpdateClient`, together with the files
in the model directory (path ↦ contents). -/
structure UpdateState where
  current_version : Option ModelVersion
  previous_versions : List ModelVersion
  files : List (String × List ℕ)
deriving DecidableEq

namespace ModelUpdateClient

/-- `ModelUpdateClient::save_model` (the temp-file-then-rename dance is a
single atomic write of the final path here). -/
def save_model (files : List (String × List ℕ)) (path : String) (weights : List ℕ) :
    List (String × List ℕ) :=
  (path, weights) :: files.filter (fun f => f.1 ≠ path)

/-- `fs::remove_file`. -/
def remove_file (files : List (String × List ℕ)) (path : String) :
    List (String × List ℕ) :=
  files.filter (fun f => f.1 ≠ path)

/-- `ModelUpdateClient::apply_update`.  `checksumFn` stands for
`compute_checksum` (SHA-256 from the external `sha2` crate, hex-encoded);
`now` stands for `chrono::Utc::now().timestamp()`.  Returns the post-call
state and the result; on an early `Err` return the state is the input
state, mirroring that the Rust code mutates nothing before its
validation checks pass. -/
def apply_update (checksumFn : List ℕ → String) (cfg : ModelUpdateConfig)
    (st : UpdateState) (response : ModelResponse) (now : ℤ) :
    UpdateState × Except String ModelVersion :=
  if response.model_weights.length > cfg.max_model_size then
    (st, .error "Model size exceeds maximum")
  else
    let computed_checksum := checksumFn response.model_weights
    if computed_checksum ≠ response.checksum then
      (st, .error "Checksum mismatch")
    else
      let model_path := cfg.model_dir ++ "/model_" ++ response.new_version ++ ".onnx"
      let files1 := save_model st.files model_path response.model_weights
      let new_version : ModelVersion :=
        { version := response.new_version
          path := model_path
          checksum := computed_checksum
          size_bytes := response.model_weights.length
          validation_accuracy := response.metadata.map (·.validation_accuracy)
          downloaded_at := now }
      match st.current_version with
      | some old_version =>
        let previous1 := old_version :: st.previous_versions
        let kept := previous1.take cfg.versions_to_keep
        let removed := previous1.drop cfg.versions_to_keep
        let files2 := removed.foldl (fun fs v => remove_file fs v.path) files1
        ({ current_version := some new_version, previous_versions := kept, files := files2 },
         .ok new_version)
      | none =>
        ({ current_version := some new_version, previous_versions := st.previous_versions
           files := files1 },
         .ok new_version)

end ModelUpdateClient

/-! ## collector/discovery.rs: container registry -/

/-- `ContainerInfo` from `models.rs`. -/
structure ContainerInfo where
  container_id : String
  pod_name : String
  namespace_ : String
  deployment : Option String
  node_name : String
  cgroup_path : String
deriving DecidableEq, Repr

/-- `char::is_ascii_hexdigit`. -/
def isHexDigitChar (c : Char) : Bool :=
  ('0' ≤ c && c ≤ '9') || ('a' ≤ c && c ≤ 'f') || ('A' ≤ c && c ≤ 'F')

/-- `id.len() == 64 && id.chars().all(|c| c.is_ascii_hexdigit())` on a
character list. -/
def isHex64 (l : List Char) : Bool :=
  l.length == 64 && l.all isHexDigitChar

/-- `isHex64` on a `String`. -/
def isHex64Str (s : String) : Bool := isHex64 s.data

/-- `ContainerRegistry`: the `DashMap` is an association list keyed by
`container_id` (no duplicate keys after the operations below). -/
structure ContainerRegistry where
  containers : List (String × ContainerInfo)
  node_name : String
deriving DecidableEq

namespace ContainerRegistry

/-- `ContainerRegistry::new`. -/
def new (node_name : String) : ContainerRegistry :=
  { containers := [], node_name := node_name }

/-- `ContainerRegistry::register`: overwrite `node_name` with the
registry's node name, then insert keyed by `container_id`. -/
def register (info : ContainerInfo) (r : ContainerRegistry) : ContainerRegistry :=
  let info2 := { info with node_name := r.node_name }
  { r with containers :=
      (info2.container_id, info2) ::
        r.containers.filter (fun p => p.1 ≠ info2.container_id) }

/-- `ContainerRegistry::unregister`. -/
def unregister (container_id : String) (r : ContainerRegistry) :
    Option ContainerInfo × ContainerRegistry :=
  ((r.containers.find? (fun p => p.1 = container_id)).map (·.2),
   { r with containers := r.containers.filter (fun p => p.1 ≠ container_id) })

/-- The body of the `if let Some(mut entry)` in
`ContainerRegistry::update_metadata`. -/
def applyMetadata (pod_name namespace_ deployment : Option String)
    (info : ContainerInfo) : ContainerInfo :=
  { info with
    pod_name := pod_name.getD info.pod_name
    namespace_ := namespace_.getD info.namespace_
    deployment := if deployment.isSome then deployment else info.deployment }

/-- `ContainerRegistry::update_metadata`. -/
def update_metadata (container_id : String) (pod_name namespace_ deployment : Option String)
    (r : ContainerRegistry) : ContainerRegistry :=
  { r with containers := r.containers.map (fun p =>
      if p.1 = container_id then (p.1, applyMetadata pod_name namespace_ deployment p.2)
      else p) }

end ContainerRegistry

/-- A registry operation, for stating invariants over arbitrary
operation sequences. -/
inductive RegistryOp where
  | register (info : ContainerInfo)
  | unregister (container_id : String)
  | update_metadata (container_id : String) (pod_name namespace_ deployment : Option String)

/-- Apply one registry operation. -/
def ContainerRegistry.applyOp (r : ContainerRegistry) : RegistryOp → ContainerRegistry
  | .register info => r.register info
  | .unregister container_id => (r.unregister container_id).2
  | .update_metadata container_id pod_name namespace_ deployment =>
      r.update_metadata container_id pod_name namespace_ deployment

/-- Run a sequence of registry operations. -/
def ContainerRegistry.runOps (r : ContainerRegistry) (ops : List RegistryOp) :
    ContainerRegistry :=
  ops.foldl ContainerRegistry.applyOp r

/-! ## collector/cgroup_v1.rs and cgroup_v2.rs: container id extraction

Rust `&str` values are modelled as `List Char`; `str::split('/')`,
`strip_prefix` and `strip_suffix` are re-implemented below with the same
semantics. -/

/-- `str::split(sep)`: every separator occurrence splits, empty pieces
are kept (`"".split('/')` is `[""]`). -/
def splitOnChar (sep : Char) : List Char → List (List Char)
  | [] => [[]]
  | c :: rest =>
    match splitOnChar sep rest, decide (c = sep) with
    | r, true => [] :: r
    | [], false => [[c]]
    | h :: t, false => (c :: h) :: t

/-- `str::strip_prefix`. -/
def stripPref (p s : List Char) : Option (List Char) :=
  if p.isPrefixOf s then some (s.drop p.length) else none

/-- `str::strip_suffix`. -/
def stripSuff (p s : List Char) : Option (List Char) :=
  if p.isSuffixOf s then some (s.take (s.length - p.length)) else none

namespace CgroupV2Collector

/-- The body of the `for part in path_parts.iter().rev()` loop of
`CgroupV2Collector::extract_container_id`, for one part: the CRI-O
check (`crio-<id>` with optional `.scope` stripped, `unwrap_or` keeping
the stripped prefix) followed by the bare 64-hex-id check; a check that
does not fire falls through to the next one. -/
def checkPart (part : List Char) : Option (List Char) :=
  (match stripPref "crio-".data part with
   | some stripped =>
     if isHex64 ((stripSuff ".scope".data stripped).getD stripped) then
       some ((stripSuff ".scope".data stripped).getD stripped)
     else none
   | none => none)
  <|> (if isHex64 part then some part else none)

end CgroupV2Collector

namespace CgroupV1Collector

/-- The body of the per-part loop of
`CgroupV1Collector::extract_container_id`: the
`cri-containerd-<id>.scope` check, then the CRI-O check, then the bare
64-hex-id check; a check that does not fire falls through to the next
one. -/
def checkPart (part : List Char) : Option (List Char) :=
  (match stripSuff ".scope".data part with
   | some stripped =>
     match stripPref "cri-containerd-".data stripped with
     | some id => if isHex64 id then some id else none
     | none => none
   | none => none)
  <|> ((match stripPref "crio-".data part with
   | some stripped =>
     if isHex64 ((stripSuff ".scope".data stripped).getD stripped) then
       some ((stripSuff ".scope".data stripped).getD stripped)
     else none
   | none => none)
  <|> (if isHex64 part then some part else none))

end CgroupV1Collector

/-- The `for part in path_parts.iter().rev()` loop: first part (in the
given order) on which `check` fires. -/
def findId (check : List Char → Option (List Char)) :
    List (List Char) → Option (List Char)
  | [] => none
  | p :: rest =>
    match check p with
    | some id => some id
    | none => findId check rest

/-- Loop over the reversed parts, then the
`path_parts.iter().rev().find(|p| !p.is_empty())` fallback. -/
def extractFromParts (check : List Char → Option (List Char))
    (path_parts : List (List Char)) : Option (List Char) :=
  match findId check path_parts.reverse with
  | some id => some id
  | none => path_parts.reverse.find? (fun p => !p.isEmpty)

/-- `CgroupV2Collector::extract_container_id`. -/
def CgroupV2Collector.extract_container_id (cgroup_path : List Char) :
    Option (List Char) :=
  extractFromParts CgroupV2Collector.checkPart (splitOnChar '/' cgroup_path)

/-- `CgroupV1Collector::extract_container_id`. -/
def CgroupV1Collector.extract_container_id (cgroup_path : List Char) :
    Option (List Char) :=
  extractFromParts CgroupV1Collector.checkPart (splitOnChar '/' cgroup_path)

/-- The id side of `ContainerWatcher::try_parse_container_path`: extract
a container id and keep it only if it is 64 hex characters.  (The real
function additionally requires cgroup stat files to exist under the
directory, so `none` here already implies the directory is rejected.) -/
def ContainerWatcher.try_parse_id (is_v2 : Bool) (path : List Char) :
    Option (List Char) :=
  match (if is_v2 then CgroupV2Collector.extract_container_id path
         else CgroupV1Collector.extract_container_id path) with
  | none => none
  | some container_id => if isHex64 container_id then some container_id else none

/-! ## predictor/features.rs -/

/-- `MIN_SAMPLES : usize = 10` -/
def MIN_SAMPLES : ℕ := 10

/-- `f64::EPSILON = 2⁻⁵²` -/
def f64EPSILON : ℚ := 1 / 2 ^ 52

/-- `FeatureVector` from `models.rs` (floats as exact rationals). -/
structure FeatureVector where
  cpu_usage_p50 : ℚ
  cpu_usage_p95 : ℚ
  cpu_usage_p99 : ℚ
  mem_usage_p50 : ℚ
  mem_usage_p95 : ℚ
  mem_usage_p99 : ℚ
  cpu_variance : ℚ
  mem_trend : ℚ
  throttle_ratio : ℚ
  hour_of_day : ℚ
  day_of_week : ℚ
  workload_age_days : ℚ

/-- `FeatureExtractor`. -/
structure FeatureExtractor where
  window_size : ℕ
  max_cpu_cores : ℚ
  max_memory_bytes : ℕ

/-- `FeatureExtractor::new`: 16 cores, 64 GiB. -/
def FeatureExtractor.new (window_size : ℕ) : FeatureExtractor :=
  { window_size := window_size
    max_cpu_cores := 16
    max_memory_bytes := 64 * 1024 * 1024 * 1024 }

/-- `f32::round` for non-negative arguments (round half away from
zero), truncated to `usize`. -/
def roundToNat (x : ℚ) : ℕ := ⌊x + 1/2⌋.toNat

/-- Insert into a sorted list; building block of the stable sort. -/
def insertSorted (a : ℚ) : List ℚ → List ℚ
  | [] => [a]
  | b :: t => if a ≤ b then a :: b :: t else b :: insertSorted a t

/-- Rust's stable `sort_by(partial_cmp)` on numbers: any stable
comparison sort of rationals produces the same, sorted list (insertion
sort here, chosen because it is structurally recursive). -/
def sortRust (l : List ℚ) : List ℚ := l.foldr insertSorted []

/-- `percentile` / `percentile_f64` from `features.rs` (the two Rust
monomorphizations are the same function on exact rationals): sort, then
index at `round((p/100)·(n-1))`, capped at `n-1`. -/
def percentile (values : List ℚ) (p : ℚ) : ℚ :=
  if values.isEmpty then 0
  else
    let sorted := sortRust values
    let idx := roundToNat ((p / 100) * ((values.length - 1 : ℕ) : ℚ))
    sorted.getD (min idx (sorted.length - 1)) 0

/-- `variance` from `features.rs`: sample variance (divide by `n-1`). -/
def variance (values : List ℚ) : ℚ :=
  if values.length < 2 then 0
  else
    let mean := values.sum / (values.length : ℚ)
    ((values.map (fun v => (v - mean) ^ 2)).sum) / ((values.length - 1 : ℕ) : ℚ)

/-- `linear_regression_slope` from `features.rs`: OLS slope with
`x` = position in the given list. -/
def linear_regression_slope (values : List ℚ) : ℚ :=
  if values.length < 2 then 0
  else
    let n : ℚ := values.length
    let sum_x := ∑ i ∈ Finset.range values.length, (i : ℚ)
    let sum_y := values.sum
    let sum_xy := ∑ i ∈ Finset.range values.length, (i : ℚ) * values.getD i 0
    let sum_x2 := ∑ i ∈ Finset.range values.length, (i : ℚ) ^ 2
    let denom := n * sum_x2 - sum_x ^ 2
    if |denom| < f64EPSILON then 0
    else (n * sum_xy - sum_x * sum_y) / denom

namespace FeatureExtractor

/-- `FeatureExtractor::normalize_cpu`. -/
def normalize_cpu (e : FeatureExtractor) (value : ℚ) : ℚ :=
  clampQ (value / e.max_cpu_cores) 0 1

/-- `FeatureExtractor::normalize_memory`. -/
def normalize_memory (e : FeatureExtractor) (value : ℕ) : ℚ :=
  clampQ ((value : ℚ) / (e.max_memory_bytes : ℚ)) 0 1

/-- `FeatureExtractor::normalize_variance`; `tanhQ` stands for the
platform `tanh` (an external libm function). -/
def normalize_variance (tanhQ : ℚ → ℚ) (e : FeatureExtractor) (var : ℚ) : ℚ :=
  clampQ (tanhQ (var / (e.max_cpu_cores * e.max_cpu_cores / 16))) 0 1

/-- `FeatureExtractor::calculate_memory_trend`. -/
def calculate_memory_trend (e : FeatureExtractor) (mem_values : List ℚ) : ℚ :=
  if mem_values.length < 2 then 0
  else
    clampQ (linear_regression_slope mem_values /
      ((e.max_memory_bytes : ℚ) / 3600)) (-1) 1

/-- `FeatureExtractor::calculate_throttle_ratio` (`first` is the oldest
sample of the reversed window, `last` the newest). -/
def calculate_throttle_ratio (samples : List ContainerMetrics) : ℚ :=
  if samples.length < 2 then 0
  else
    match samples.getLast?, samples.head? with
    | some first, some last =>
      let throttle_delta := last.cpu_throttled_periods - first.cpu_throttled_periods
      let time_delta : ℤ := max (last.timestamp - first.timestamp) 1
      clampQ (((throttle_delta : ℚ) / (time_delta : ℚ)) / 100) 0 1
    | _, _ => 0

/-- `FeatureExtractor::extract_hour`: the UTC hour of the timestamp over
24 (floor-division semantics match the calendar for all timestamps). -/
def extract_hour (timestamp : ℤ) : ℚ :=
  (((timestamp % 86400) / 3600 : ℤ) : ℚ) / 24

/-- `FeatureExtractor::extract_day`: days-from-Monday of the timestamp's
UTC weekday over 7 (epoch day 0 was a Thursday, index 3). -/
def extract_day (timestamp : ℤ) : ℚ :=
  ((((timestamp / 86400) + 3) % 7 : ℤ) : ℚ) / 7

/-- `FeatureExtractor::calculate_workload_age`. -/
def calculate_workload_age (metrics : List ContainerMetrics) : ℚ :=
  if metrics.isEmpty then 0
  else
    let first := ((metrics.map (·.timestamp)).min?).getD 0
    let last := ((metrics.map (·.timestamp)).max?).getD 0
    let age_days := ((max (last - first) 0 : ℤ) : ℚ) / 86400
    clampQ (age_days / 30) 0 1

/-- `FeatureExtractor::extract`.  `samples` is the reversed
(most-recent-first) window (`iter().rev().take(window_size)`); `tanhQ`
stands for the external libm `tanh`. -/
def extract (tanhQ : ℚ → ℚ) (e : FeatureExtractor) (metrics : List ContainerMetrics) :
    Option FeatureVector :=
  if metrics.length < MIN_SAMPLES then none
  else
    let samples := metrics.reverse.take e.window_size
    let cpu_values := samples.map (·.cpu_usage_cores)
    let mem_values := samples.map (fun m => ((m.memory_working_set_bytes : ℕ) : ℚ))
    some
      { cpu_usage_p50 := e.normalize_cpu (percentile cpu_values 50)
        cpu_usage_p95 := e.normalize_cpu (percentile cpu_values 95)
        cpu_usage_p99 := e.normalize_cpu (percentile cpu_values 99)
        mem_usage_p50 := e.normalize_memory ⌊percentile mem_values 50⌋.toNat
        mem_usage_p95 := e.normalize_memory ⌊percentile mem_values 95⌋.toNat
        mem_usage_p99 := e.normalize_memory ⌊percentile mem_values 99⌋.toNat
        cpu_variance := normalize_variance tanhQ e (variance cpu_values)
        mem_trend := e.calculate_memory_trend mem_values
        throttle_ratio := calculate_throttle_ratio samples
        hour_of_day := extract_hour ((samples.head?.map (·.timestamp)).getD 0)
        day_of_week := extract_day ((samples.head?.map (·.timestamp)).getD 0)
        workload_age_days := calculate_workload_age metrics }

end FeatureExtractor

/-! ## anomaly/leak_detector.rs -/

/-- `MIN_SAMPLES_FOR_DETECTION : usize = 10` -/
def MIN_SAMPLES_FOR_DETECTION : ℕ := 10

/-- `MONOTONICITY_THRESHOLD : f64 = 0.95` -/
def MONOTONICITY_THRESHOLD : ℚ := 95 / 100

/-- `LeakDetector` (window as whole seconds, `Duration::as_secs`). -/
structure LeakDetector where
  window_size : ℕ
  slope_threshold : ℚ
  memory_limit : Option ℕ

/-- `impl Default for LeakDetector`: 1-hour window, 1 KB/s threshold. -/
def LeakDetector.default : LeakDetector :=
  { window_size := 3600, slope_threshold := 1024, memory_limit := none }

/-- `LeakAnomaly`. -/
structure LeakAnomaly where
  slope_bytes_per_sec : ℚ
  projected_oom_time : ℤ
  confidence : ℚ
  current_memory_bytes : ℕ
  samples_analyzed : ℕ

namespace LeakDetector

/-- `LeakDetector::filter_window`: keep samples with
`ts ≥ latest_ts - window` (`latest_ts` is the last sample's timestamp,
`unwrap_or(0)`). -/
def filter_window (d : LeakDetector) (samples : List (ℤ × ℕ)) : List (ℤ × ℕ) :=
  match samples.getLast? with
  | none => []
  | some last =>
    samples.filter (fun p => last.1 - (d.window_size : ℤ) ≤ p.1)

/-- `LeakDetector::linear_regression_slope`: OLS slope of memory versus
time with timestamps rebased to the first sample's. -/
def linear_regression_slope (samples : List (ℤ × ℕ)) : ℚ :=
  if samples.length < 2 then 0
  else
    let n : ℚ := samples.length
    let t0 : ℚ := (((samples.head?.map Prod.fst).getD 0 : ℤ) : ℚ)
    let sum_x := (samples.map (fun p => (p.1 : ℚ) - t0)).sum
    let sum_y := (samples.map (fun p => (p.2 : ℚ))).sum
    let sum_xy := (samples.map (fun p => ((p.1 : ℚ) - t0) * (p.2 : ℚ))).sum
    let sum_xx := (samples.map (fun p => ((p.1 : ℚ) - t0) * ((p.1 : ℚ) - t0))).sum
    let denominator := n * sum_xx - sum_x * sum_x
    if |denominator| < f64EPSILON then 0
    else (n * sum_xy - sum_x * sum_y) / denominator

/-- `LeakDetector::calculate_r_squared`. -/
def calculate_r_squared (samples : List (ℤ × ℕ)) (slope : ℚ) : ℚ :=
  if samples.length < 2 then 0
  else
    let n : ℚ := samples.length
    let t0 : ℚ := (((samples.head?.map Prod.fst).getD 0 : ℤ) : ℚ)
    let mean_y := (samples.map (fun p => (p.2 : ℚ))).sum / n
    let mean_x := (samples.map (fun p => (p.1 : ℚ) - t0)).sum / n
    let intercept := mean_y - slope * mean_x
    let ss_res :=
      (samples.map (fun p => ((p.2 : ℚ) - (slope * ((p.1 : ℚ) - t0) + intercept)) ^ 2)).sum
    let ss_tot := (samples.map (fun p => ((p.2 : ℚ) - mean_y) ^ 2)).sum
    if |ss_tot| < f64EPSILON then 0
    else 1 - ss_res / ss_tot

/-- `LeakDetector::calculate_monotonicity`: fraction of adjacent pairs
with non-decreasing memory. -/
def calculate_monotonicity (samples : List (ℤ × ℕ)) : ℚ :=
  if samples.length < 2 then 0
  else
    ((samples.zip samples.tail).countP (fun w => w.1.2 ≤ w.2.2) : ℚ) /
      ((samples.length - 1 : ℕ) : ℚ)

/-- `LeakDetector::project_oom_time` (`as i64` truncates the positive
quotient, i.e. floors it). -/
def project_oom_time (d : LeakDetector) (samples : List (ℤ × ℕ)) (slope : ℚ) : ℤ :=
  match d.memory_limit with
  | none => 0
  | some limit =>
    let current := samples.getLast?.getD (0, 0)
    if limit ≤ current.2 then current.1
    else if slope ≤ 0 then 0
    else current.1 + ⌊(((limit - current.2 : ℕ) : ℚ) / slope)⌋

/-- `LeakDetector::detect`. -/
def detect (d : LeakDetector) (samples : List (ℤ × ℕ)) : Option LeakAnomaly :=
  if samples.length < MIN_SAMPLES_FOR_DETECTION then none
  else
    let window_samples := d.filter_window samples
    if window_samples.length < MIN_SAMPLES_FOR_DETECTION then none
    else
      let slope := linear_regression_slope window_samples
      if slope ≤ d.slope_threshold then none
      else
        let monotonicity := calculate_monotonicity window_samples
        if monotonicity < MONOTONICITY_THRESHOLD then none
        else
          let r_squared := calculate_r_squared window_samples slope
          some { slope_bytes_per_sec := slope
                 projected_oom_time := project_oom_time d window_samples slope
                 confidence := r_squared * monotonicity
                 current_memory_bytes := (window_samples.getLast?.map Prod.snd).getD 0
                 samples_analyzed := window_samples.length }

end LeakDetector

/-! ## Concrete test data -/

/-- Ten flat samples (one per minute, constant 100 bytes), for the leak
detector instance. -/
def c6Samples : List (ℤ × ℕ) := (List.range 10).map (fun i => ((i : ℤ) * 60, 100))

/-- A 64-character hex id (all `'a'`). -/
def c5Hex : List Char := List.replicate 64 'a'

/-- A cgroup-v2 path whose leaf is `cri-containerd-<64hex>.scope`. -/
def c5Path : List Char :=
  "/kubepods.slice/cri-containerd-".data ++ c5Hex ++ ".scope".data

/-- The `ContainerInfo` the repository's own `test_container_registry`
registers: its id `"abc123"` is 6 characters, not 64. -/
def c8Info : ContainerInfo :=
  { container_id := "abc123"
    pod_name := "test-pod"
    namespace_ := "default"
    deployment := some "test-deploy"
    node_name := ""
    cgroup_path := "/test/path" }

/-- A `ContainerInfo` with a well-formed 64-hex id. -/
def c8HexInfo : ContainerInfo :=
  { c8Info with container_id := String.mk (List.replicate 64 'a') }

/-- A concrete `ContainerMetrics` value, indexed by `i` through its
timestamp (mirrors the `create_test_metrics` helpers of the test suite). -/
def scenarioMetrics (i : ℕ) : ContainerMetrics :=
  { container_id := "container-1"
    pod_name := "test-pod"
    namespace_ := "default"
    deployment := some "test-deployment"
    timestamp := (i : ℤ)
    cpu_usage_cores := 0
    cpu_throttled_periods := 0
    memory_usage_bytes := 0
    memory_working_set_bytes := 0
    memory_cache_bytes := 0
    network_rx_bytes := 0
    network_tx_bytes := 0 }

/-- The offline-replay scenario: go offline, buffer 100 metrics
(at `SystemTime` 0), go online. -/
def c7AfterPushes : OfflineBufferManager :=
  OfflineBufferManager.go_online
    ((List.range 100).foldl
      (fun m i => (OfflineBufferManager.buffer_if_offline 0 (scenarioMetrics i) m).2)
      (OfflineBufferManager.go_offline (OfflineBufferManager.new BufferConfig.default)))

/-- Metrics with strictly increasing working-set memory (100 MB per
sample). -/
def c4m (i : ℕ) : ContainerMetrics :=
  { scenarioMetrics i with memory_working_set_bytes := 100000000 * (i + 1) }

/-- Ten chronologically ordered samples with strictly increasing
working-set memory. -/
def c4Metrics : List ContainerMetrics :=
  [c4m 0, c4m 1, c4m 2, c4m 3, c4m 4, c4m 5, c4m 6, c4m 7, c4m 8, c4m 9]

/-- A small concrete buffer used to instantiate the push invariant. -/
def c3Buffer : MetricsBuffer :=
  { buffer := [{ metrics := scenarioMetrics 0, buffered_at := 0 }]
    config := { max_retention := 10, max_size := 2, flush_interval := 60 }
    dirty := false }

/-! ## Theorems -/

theorem clampQ_nonneg (x hi : ℚ) (h : 0 ≤ hi) : 0 ≤ clampQ x 0 hi :=
  le_min (le_max_right x 0) h

theorem clampQ_le (x lo hi : ℚ) : clampQ x lo hi ≤ hi :=
  min_le_right _ _

theorem OutputFormatter.denormalize_memory_le (x : ℚ) :
    OutputFormatter.denormalize_memory x ≤ 2 ^ 36 := by
  unfold OutputFormatter.denormalize_memory
  have h1 : clampQ x 0 1 * MAX_MEMORY_GB * 1024 * 1024 * 1024 ≤ (2 ^ 36 : ℚ) := by
    have hc : clampQ x 0 1 ≤ 1 := clampQ_le x 0 1
    have h0 : (0 : ℚ) ≤ clampQ x 0 1 := clampQ_nonneg x 1 zero_le_one
    unfold MAX_MEMORY_GB
    nlinarith
  have h2 : ⌊clampQ x 0 1 * MAX_MEMORY_GB * 1024 * 1024 * 1024⌋ ≤ (2 ^ 36 : ℤ) := by
    have := Int.floor_le_floor h1
    simpa using this
  omega

theorem OutputFormatter.apply_memory_buffer_lt (m : ℕ) (hm : m ≤ 2 ^ 36) :
    (6 / 5 : ℚ) * m - 1 < OutputFormatter.apply_memory_buffer OutputConfig.default m := by
  unfold OutputFormatter.apply_memory_buffer OutputConfig.default MEMORY_BUFFER_PERCENT
  have hfl : (0 : ℤ) ≤ ⌊(m : ℚ) * (1 / 5)⌋ := by
    apply Int.floor_nonneg.2
    positivity
  have hfl_le : ⌊(m : ℚ) * (1 / 5)⌋ ≤ (m : ℤ) := by
    have : (m : ℚ) * (1 / 5) ≤ (m : ℚ) := by nlinarith [Nat.cast_nonneg (α := ℚ) m]
    calc ⌊(m : ℚ) * (1 / 5)⌋ ≤ ⌊(m : ℚ)⌋ := Int.floor_le_floor this
    _ = (m : ℤ) := Int.floor_natCast m
  have hcap : m + ⌊(m : ℚ) * (1 / 5)⌋.toNat ≤ 2 ^ 64 - 1 := by
    have : ⌊(m : ℚ) * (1 / 5)⌋.toNat ≤ m := by omega
    omega
  rw [min_eq_left hcap]
  have hgt : ((m : ℚ)) * (1 / 5) - 1 < (⌊(m : ℚ) * (1 / 5)⌋ : ℚ) := Int.sub_one_lt_floor _
  have ht : ((⌊(m : ℚ) * (1 / 5)⌋.toNat : ℕ) : ℚ) = ((⌊(m : ℚ) * (1 / 5)⌋ : ℤ) : ℚ) := by
    exact_mod_cast congrArg (fun z : ℤ => (z : ℚ)) (Int.toNat_of_nonneg hfl)
  rw [Nat.cast_add, ht]
  linarith

/-- **C1 counterexample.**  With the default configuration and raw model
output vector `[0, 0, 0, 0.5, 1]`, the emitted `memory_limit_bytes` is
`41231686041`, strictly below `1.2` times the denormalized raw memory
limit `34359738368` (which times `1.2` is `41231686041.6`): the 20%
buffer is truncated to an integer before being added, so the claimed
bound fails by a fraction of a byte. -/
theorem C1_counterexample :
    ((OutputFormatter.format OutputConfig.default ![0, 0, 0, 1/2, 1]
        "v1.0.0" 0).memory_limit_bytes : ℚ)
      < 6 / 5 * (OutputFormatter.denormalize_memory
          ((![0, 0, 0, 1/2, 1] : Fin 5 → ℚ) 3) : ℚ) := by
  have hraw3 : (![0, 0, 0, 1/2, 1] : Fin 5 → ℚ) 3 = 1/2 := by
    simp [Matrix.cons_val_three, Matrix.vecHead, Matrix.vecTail]
  have hraw2 : (![0, 0, 0, 1/2, 1] : Fin 5 → ℚ) 2 = 0 := by
    simp [Matrix.cons_val_two, Matrix.vecHead, Matrix.vecTail]
  have hm : OutputFormatter.denormalize_memory (1/2) = 34359738368 := by
    unfold OutputFormatter.denormalize_memory clampQ MAX_MEMORY_GB
    rw [show ⌊min (max (1/2 : ℚ) 0) 1 * 64 * 1024 * 1024 * 1024⌋ = 34359738368 by norm_num]
    omega
  have hm0 : OutputFormatter.denormalize_memory 0 = 0 := by
    unfold OutputFormatter.denormalize_memory clampQ MAX_MEMORY_GB
    rw [show ⌊min (max (0 : ℚ) 0) 1 * 64 * 1024 * 1024 * 1024⌋ = 0 by norm_num]
    omega
  have hbuf : OutputFormatter.apply_memory_buffer OutputConfig.default 34359738368
      = 41231686041 := by
    unfold OutputFormatter.apply_memory_buffer OutputConfig.default MEMORY_BUFFER_PERCENT
    rw [show ⌊(((34359738368 : ℕ) : ℚ)) * (1 / 5)⌋ = 6871947673 by norm_num]
    omega
  rw [hraw3]
  unfold OutputFormatter.format
  dsimp only
  rw [hraw2, hraw3, hm, hm0, hbuf]
  unfold OutputConfig.default MIN_MEMORY_BYTES
  rw [show (41231686041 ⊔ 0 ⊔ (64 * 1024 * 1024) : ℕ) = 41231686041 by omega]
  push_cast
  norm_num

/-- **C1 (amended).**  For every raw model output vector and model-version
string, the `ResourceProfile` returned by `OutputFormatter::format` with
the default configuration satisfies: `cpu_limit ≥ cpu_request`,
`memory_limit ≥ memory_request`, `cpu_request ≥ 10` millicores,
`memory_request ≥ 64 MiB`, `confidence ∈ [0, 1]`, and `memory_limit` is
at least the denormalized raw memory limit plus the truncated 20% buffer
`⌊0.2·raw⌋` — hence strictly greater than `1.2·raw − 1` byte (the exact
`1.2·raw` bound fails only by the sub-byte truncation). -/
theorem C1_format_bounds (raw : Fin 5 → ℚ) (version : String) (now : ℤ) :
    (OutputFormatter.format OutputConfig.default raw version now).cpu_request_millicores
        ≤ (OutputFormatter.format OutputConfig.default raw version now).cpu_limit_millicores ∧
    (OutputFormatter.format OutputConfig.default raw version now).memory_request_bytes
        ≤ (OutputFormatter.format OutputConfig.default raw version now).memory_limit_bytes ∧
    10 ≤ (OutputFormatter.format OutputConfig.default raw version now).cpu_request_millicores ∧
    64 * 1024 * 1024
        ≤ (OutputFormatter.format OutputConfig.default raw version now).memory_request_bytes ∧
    (0 ≤ (OutputFormatter.format OutputConfig.default raw version now).confidence ∧
     (OutputFormatter.format OutputConfig.default raw version now).confidence ≤ 1) ∧
    OutputFormatter.apply_memory_buffer OutputConfig.default
        (OutputFormatter.denormalize_memory (raw 3))
        ≤ (OutputFormatter.format OutputConfig.default raw version now).memory_limit_bytes ∧
    6 / 5 * (OutputFormatter.denormalize_memory (raw 3) : ℚ) - 1
      < ((OutputFormatter.format OutputConfig.default raw version now).memory_limit_bytes : ℚ) := by
  set p := OutputFormatter.format OutputConfig.default raw version now with hp0
  have hp : p = OutputFormatter.format OutputConfig.default raw version now := hp0
  unfold OutputFormatter.format at hp
  dsimp only at hp
  refine ⟨?_, ?_, ?_, ?_, ⟨?_, ?_⟩, ?_, ?_⟩
  · rw [hp]
    exact max_le_max (le_max_right _ _) le_rfl
  · rw [hp]
    exact max_le_max (le_max_right _ _) le_rfl
  · rw [hp]
    exact le_max_right _ _
  · rw [hp]
    exact le_max_right _ _
  · rw [hp]
    exact clampQ_nonneg _ 1 zero_le_one
  · rw [hp]
    exact clampQ_le _ 0 1
  · rw [hp]
    exact le_trans (le_max_left _ _) (le_max_left _ _)
  · rw [hp]
    have hb := OutputFormatter.apply_memory_buffer_lt
      (OutputFormatter.denormalize_memory (raw 3))
      (OutputFormatter.denormalize_memory_le (raw 3))
    have hle : OutputFormatter.apply_memory_buffer OutputConfig.default
        (OutputFormatter.denormalize_memory (raw 3))
        ≤ max (max (OutputFormatter.apply_memory_buffer OutputConfig.default
            (OutputFormatter.denormalize_memory (raw 3)))
          (OutputFormatter.denormalize_memory (raw 2)))
          OutputConfig.default.min_memory_bytes :=
      le_trans (le_max_left _ _) (le_max_left _ _)
    have : (OutputFormatter.apply_memory_buffer OutputConfig.default
        (OutputFormatter.denormalize_memory (raw 3)) : ℚ)
        ≤ ((max (max (OutputFormatter.apply_memory_buffer OutputConfig.default
            (OutputFormatter.denormalize_memory (raw 3)))
          (OutputFormatter.denormalize_memory (raw 2)))
          OutputConfig.default.min_memory_bytes : ℕ) : ℚ) := by
      exact_mod_cast hle
    linarith

/-- **C2.**  If the `ModelResponse` is oversized or its computed digest
differs from the server-declared checksum, `apply_update` returns an
error and leaves the whole client state — current-version slot,
previous-versions stack, and the model directory's files — unchanged:
the rejection happens before any disk write or slot mutation.  The
theorem holds for every digest function `checksumFn` (SHA-256 of the
external `sha2` crate in the real code). -/
theorem C2_apply_update_rejects (checksumFn : List ℕ → String)
    (cfg : ModelUpdateConfig) (st : UpdateState) (response : ModelResponse) (now : ℤ)
    (h : response.model_weights.length > cfg.max_model_size ∨
         checksumFn response.model_weights ≠ response.checksum) :
    (ModelUpdateClient.apply_update checksumFn cfg st response now).1 = st ∧
    ∃ e, (ModelUpdateClient.apply_update checksumFn cfg st response now).2 =
      Except.error e := by
  unfold ModelUpdateClient.apply_update
  by_cases h1 : response.model_weights.length > cfg.max_model_size
  · rw [if_pos h1]
    exact ⟨rfl, "Model size exceeds maximum", rfl⟩
  · rw [if_neg h1]
    have h2 : checksumFn response.model_weights ≠ response.checksum := h.resolve_left h1
    dsimp only
    rw [if_pos h2]
    exact ⟨rfl, "Checksum mismatch", rfl⟩

/-- Witness for C2: a three-byte model whose declared checksum `"bb"`
differs from the computed digest `"aa"`. -/
theorem C2_apply_update_rejects_witness :
    (((3 : ℕ) > ModelUpdateConfig.default.max_model_size ∨
      (fun _ : List ℕ => "aa") [1, 2, 3] ≠ "bb") ∧
     (ModelUpdateClient.apply_update (fun _ => "aa") ModelUpdateConfig.default
        ⟨none, [], []⟩
        ⟨true, "v2", [1, 2, 3], "bb", none⟩ 0).1 = ⟨none, [], []⟩ ∧
     ∃ e, (ModelUpdateClient.apply_update (fun _ => "aa") ModelUpdateConfig.default
        ⟨none, [], []⟩
        ⟨true, "v2", [1, 2, 3], "bb", none⟩ 0).2 = Except.error e) :=
  ⟨Or.inr (by decide),
   C2_apply_update_rejects (fun _ => "aa") ModelUpdateConfig.default
     ⟨none, [], []⟩ ⟨true, "v2", [1, 2, 3], "bb", none⟩ 0 (Or.inr (by decide))⟩

theorem MetricsBuffer.evictToCapacity_suffix (max_size : ℕ) :
    ∀ l : List TimestampedMetrics, MetricsBuffer.evictToCapacity max_size l <:+ l := by
  intro l
  induction l with
  | nil => simp [MetricsBuffer.evictToCapacity]
  | cons x t ih =>
    unfold MetricsBuffer.evictToCapacity
    split
    · exact ih.trans (List.suffix_cons x t)
    · exact List.suffix_rfl

theorem MetricsBuffer.evictToCapacity_length_lt (max_size : ℕ) (hm : 0 < max_size) :
    ∀ l : List TimestampedMetrics,
      (MetricsBuffer.evictToCapacity max_size l).length < max_size := by
  intro l
  induction l with
  | nil => simpa [MetricsBuffer.evictToCapacity] using hm
  | cons x t ih =>
    unfold MetricsBuffer.evictToCapacity
    split
    · exact ih
    · omega

theorem dropWhile_cutoff_le (cutoff : ℤ) :
    ∀ l : List TimestampedMetrics,
      l.Pairwise (fun a b => a.buffered_at ≤ b.buffered_at) →
      ∀ e ∈ l.dropWhile (fun e => e.buffered_at < cutoff), cutoff ≤ e.buffered_at := by
  intro l
  induction l with
  | nil => intro _ e he; simp at he
  | cons x t ih =>
    intro hp e he
    rcases List.pairwise_cons.1 hp with ⟨hx, ht⟩
    by_cases hcut : x.buffered_at < cutoff
    · rw [List.dropWhile_cons, if_pos (by simpa using hcut)] at he
      exact ih ht e he
    · rw [List.dropWhile_cons, if_neg (by simpa using hcut)] at he
      rcases List.mem_cons.1 he with rfl | he
      · omega
      · exact le_trans (by omega) (hx e he)

/-- **C3.**  Immediately after any `MetricsBuffer::push` on a buffer with
positive cap `max_size` and retention `max_retention`, the buffer holds
at most `max_size` entries; given non-decreasing `buffered_at` stamps,
every retained entry `e` satisfies `now - e.buffered_at ≤ max_retention`;
and eviction removes only the oldest (front) entries: the new buffer is a
suffix of the old buffer with the fresh entry appended. -/
theorem C3_push_invariants (b : MetricsBuffer) (metrics : ContainerMetrics) (now : ℤ)
    (hmax : 0 < b.config.max_size)
    (hsorted : b.buffer.Pairwise (fun x y => x.buffered_at ≤ y.buffered_at)) :
    (b.push now metrics).buffer.length ≤ b.config.max_size ∧
    (∀ e ∈ (b.push now metrics).buffer,
      now - e.buffered_at ≤ (b.config.max_retention : ℤ)) ∧
    (b.push now metrics).buffer <:+ b.buffer ++ [{ metrics := metrics, buffered_at := now }] := by
  have hbuf : (b.push now metrics).buffer =
      ((MetricsBuffer.evictToCapacity b.config.max_size b.buffer).dropWhile
        (fun e => e.buffered_at < now - (b.config.max_retention : ℤ)))
      ++ [{ metrics := metrics, buffered_at := now }] := rfl
  have hsuf1 := MetricsBuffer.evictToCapacity_suffix b.config.max_size b.buffer
  have hlen1 := MetricsBuffer.evictToCapacity_length_lt b.config.max_size hmax b.buffer
  have hsuf2 : ((MetricsBuffer.evictToCapacity b.config.max_size b.buffer).dropWhile
      (fun e => e.buffered_at < now - (b.config.max_retention : ℤ)))
      <:+ MetricsBuffer.evictToCapacity b.config.max_size b.buffer :=
    List.dropWhile_suffix _
  have hsorted1 : (MetricsBuffer.evictToCapacity b.config.max_size b.buffer).Pairwise
      (fun x y => x.buffered_at ≤ y.buffered_at) :=
    hsorted.sublist hsuf1.sublist
  refine ⟨?_, ?_, ?_⟩
  · rw [hbuf, List.length_append]
    have := List.IsSuffix.length_le hsuf2
    simp only [List.length_singleton]
    omega
  · intro e he
    rw [hbuf] at he
    rcases List.mem_append.1 he with he | he
    · have := dropWhile_cutoff_le (now - (b.config.max_retention : ℤ)) _ hsorted1 e he
      omega
    · rcases List.mem_singleton.1 he with rfl
      simp only
      omega
  · rw [hbuf]
    obtain ⟨t1, ht1⟩ := hsuf1
    obtain ⟨t2, ht2⟩ := hsuf2
    exact ⟨t1 ++ t2, by
      rw [List.append_assoc t1 t2, ← List.append_assoc t2, ht2, ← List.append_assoc t1, ht1]⟩

/-- Witness for C3: pushing into a two-slot buffer holding one entry. -/
theorem C3_push_invariants_witness :
    (0 < c3Buffer.config.max_size ∧
     c3Buffer.buffer.Pairwise (fun x y => x.buffered_at ≤ y.buffered_at)) ∧
    ((c3Buffer.push 5 (scenarioMetrics 1)).buffer.length ≤ c3Buffer.config.max_size ∧
     (∀ e ∈ (c3Buffer.push 5 (scenarioMetrics 1)).buffer,
       (5 : ℤ) - e.buffered_at ≤ (c3Buffer.config.max_retention : ℤ)) ∧
     (c3Buffer.push 5 (scenarioMetrics 1)).buffer <:+
       c3Buffer.buffer ++ [{ metrics := scenarioMetrics 1, buffered_at := 5 }]) :=
  ⟨⟨by decide, by simp [c3Buffer]⟩,
   C3_push_invariants c3Buffer (scenarioMetrics 1) 5 (by decide) (by simp [c3Buffer])⟩

set_option maxRecDepth 40000 in
/-- **C7 counterexample.**  After going offline, pushing 100 metrics and
going online, `drain_batch_for_sync(30)` can never return more than 30
entries: the first three drains return 30, 30 and 30 metrics (not
30, 30 and 40), and 10 entries are still pending afterwards (not 0). -/
theorem C7_counterexample :
    ((OfflineBufferManager.drain_batch_for_sync 30
        (OfflineBufferManager.drain_batch_for_sync 30
          (OfflineBufferManager.drain_batch_for_sync 30 c7AfterPushes).2).2).1.length = 30 ∧
     (OfflineBufferManager.drain_batch_for_sync 30
        (OfflineBufferManager.drain_batch_for_sync 30
          (OfflineBufferManager.drain_batch_for_sync 30 c7AfterPushes).2).2).1.length ≠ 40) ∧
    (OfflineBufferManager.pending_sync_count
        (OfflineBufferManager.drain_batch_for_sync 30
          (OfflineBufferManager.drain_batch_for_sync 30
            (OfflineBufferManager.drain_batch_for_sync 30 c7AfterPushes).2).2).2 = 10 ∧
     OfflineBufferManager.pending_sync_count
        (OfflineBufferManager.drain_batch_for_sync 30
          (OfflineBufferManager.drain_batch_for_sync 30
            (OfflineBufferManager.drain_batch_for_sync 30 c7AfterPushes).2).2).2 ≠ 0) := by
  decide

set_option maxRecDepth 40000 in
/-- **C7 (amended).**  After `go_offline`, pushing 100 metrics and
`go_online`, a first `drain_batch_for_sync(30)` returns the first 30
buffered metrics, two further calls return the next 30 and the next 30,
a fourth call returns the remaining 10, and `pending_sync_count` then
equals 0. -/
theorem C7_offline_replay :
    (OfflineBufferManager.drain_batch_for_sync 30 c7AfterPushes).1 =
      (((List.range 100).map scenarioMetrics).take 30) ∧
    (OfflineBufferManager.drain_batch_for_sync 30
      (OfflineBufferManager.drain_batch_for_sync 30 c7AfterPushes).2).1 =
      ((((List.range 100).map scenarioMetrics).drop 30).take 30) ∧
    (OfflineBufferManager.drain_batch_for_sync 30
      (OfflineBufferManager.drain_batch_for_sync 30
        (OfflineBufferManager.drain_batch_for_sync 30 c7AfterPushes).2).2).1 =
      ((((List.range 100).map scenarioMetrics).drop 60).take 30) ∧
    (OfflineBufferManager.drain_batch_for_sync 30
      (OfflineBufferManager.drain_batch_for_sync 30
        (OfflineBufferManager.drain_batch_for_sync 30
          (OfflineBufferManager.drain_batch_for_sync 30 c7AfterPushes).2).2).2).1 =
      (((List.range 100).map scenarioMetrics).drop 90) ∧
    OfflineBufferManager.pending_sync_count
      (OfflineBufferManager.drain_batch_for_sync 30
        (OfflineBufferManager.drain_batch_for_sync 30
          (OfflineBufferManager.drain_batch_for_sync 30
            (OfflineBufferManager.drain_batch_for_sync 30 c7AfterPushes).2).2).2).2 = 0 := by
  decide

/-- **C8 counterexample.**  `register` does not validate ids: registering
the `ContainerInfo` with id `"abc123"` (exactly what the repository's own
`test_container_registry` does) leaves a stored entry whose id is not 64
hex characters, so the invariant fails for arbitrary `register` calls. -/
theorem C8_counterexample :
    ¬ (∀ p ∈ (ContainerRegistry.runOps (ContainerRegistry.new "test-node")
          [RegistryOp.register c8Info]).containers,
        isHex64Str p.2.container_id = true) := by
  decide

theorem ContainerRegistry.applyOp_id_invariant (r : ContainerRegistry) (op : RegistryOp)
    (hr : ∀ p ∈ r.containers, isHex64Str p.2.container_id = true)
    (hop : ∀ info, op = RegistryOp.register info → isHex64Str info.container_id = true) :
    ∀ p ∈ (r.applyOp op).containers, isHex64Str p.2.container_id = true := by
  cases op with
  | register info =>
    intro p hp
    rcases List.mem_cons.1 hp with rfl | hp
    · exact hop info rfl
    · exact hr p (List.mem_of_mem_filter hp)
  | unregister container_id =>
    intro p hp
    exact hr p (List.mem_of_mem_filter hp)
  | update_metadata container_id pod_name namespace_ deployment =>
    intro p hp
    rcases List.mem_map.1 hp with ⟨q, hq, rfl⟩
    by_cases h : q.1 = container_id
    · rw [if_pos h]
      exact hr q hq
    · rw [if_neg h]
      exact hr q hq

/-- **C8 (amended).**  After any sequence of `register`, `unregister` and
`update_metadata` operations on a registry whose entries all have 64-hex
ids, every stored `ContainerInfo` has a 64-hex `container_id`, provided
every registered info carries a 64-hex id (as holds for every info
produced by `try_parse_container_path`, which is the only producer in
the discovery pipeline; `register` itself performs no validation). -/
theorem C8_registry_hex_invariant (r : ContainerRegistry) (ops : List RegistryOp)
    (hr : ∀ p ∈ r.containers, isHex64Str p.2.container_id = true)
    (hops : ∀ op ∈ ops, ∀ info, op = RegistryOp.register info →
      isHex64Str info.container_id = true) :
    ∀ p ∈ (r.runOps ops).containers, isHex64Str p.2.container_id = true := by
  induction ops generalizing r with
  | nil => exact hr
  | cons op rest ih =>
    have h1 := ContainerRegistry.applyOp_id_invariant r op hr
      (hops op (List.mem_cons_self op rest))
    exact ih (r.applyOp op) h1 (fun o ho => hops o (List.mem_cons_of_mem op ho))

/-- Witness for C8 (amended): registering a 64-hex id from an empty
registry. -/
theorem C8_registry_hex_invariant_witness :
    ((∀ p ∈ (ContainerRegistry.new "n").containers, isHex64Str p.2.container_id = true) ∧
     (∀ op ∈ [RegistryOp.register c8HexInfo], ∀ info,
        op = RegistryOp.register info → isHex64Str info.container_id = true)) ∧
    (∀ p ∈ ((ContainerRegistry.new "n").runOps
        [RegistryOp.register c8HexInfo]).containers,
      isHex64Str p.2.container_id = true) :=
  ⟨⟨by decide, by
      intro op hop info heq
      rw [List.mem_singleton] at hop
      subst hop
      cases heq
      decide⟩,
   C8_registry_hex_invariant (ContainerRegistry.new "n")
     [RegistryOp.register c8HexInfo]
     (by decide)
     (by
      intro op hop info heq
      rw [List.mem_singleton] at hop
      subst hop
      cases heq
      decide)⟩

theorem ContainerRegistry.applyOp_node_name (r : ContainerRegistry) (op : RegistryOp) :
    (r.applyOp op).node_name = r.node_name := by
  cases op <;> rfl

theorem ContainerRegistry.applyOp_node_invariant (r : ContainerRegistry) (op : RegistryOp)
    (hr : ∀ p ∈ r.containers, p.2.node_name = r.node_name) :
    ∀ p ∈ (r.applyOp op).containers, p.2.node_name = (r.applyOp op).node_name := by
  rw [ContainerRegistry.applyOp_node_name]
  cases op with
  | register info =>
    intro p hp
    rcases List.mem_cons.1 hp with rfl | hp
    · rfl
    · exact hr p (List.mem_of_mem_filter hp)
  | unregister container_id =>
    intro p hp
    exact hr p (List.mem_of_mem_filter hp)
  | update_metadata container_id pod_name namespace_ deployment =>
    intro p hp
    rcases List.mem_map.1 hp with ⟨q, hq, rfl⟩
    by_cases h : q.1 = container_id
    · rw [if_pos h]
      exact hr q hq
    · rw [if_neg h]
      exact hr q hq

/-- **C10.**  Every `ContainerInfo` stored in a `ContainerRegistry`
created with node name `N` has `node_name = N`, after any sequence of
`register`, `unregister` and `update_metadata` operations: `register`
overwrites the supplied `node_name` with `N` before insertion, and
`update_metadata` never modifies `node_name`. -/
theorem C10_node_name_invariant (node : String) (ops : List RegistryOp) :
    ∀ p ∈ ((ContainerRegistry.new node).runOps ops).containers,
      p.2.node_name = node := by
  suffices h : ∀ (r : ContainerRegistry),
      (∀ p ∈ r.containers, p.2.node_name = r.node_name) →
      (∀ p ∈ (r.runOps ops).containers, p.2.node_name = (r.runOps ops).node_name) ∧
      (r.runOps ops).node_name = r.node_name by
    intro p hp
    rcases h (ContainerRegistry.new node) (by intro p hp; simp [ContainerRegistry.new] at hp)
      with ⟨h1, h2⟩
    rw [← show (ContainerRegistry.new node).node_name = node from rfl, ← h2]
    exact h1 p hp
  induction ops with
  | nil => exact fun r hr => ⟨hr, rfl⟩
  | cons op rest ih =>
    intro r hr
    have h1 := ContainerRegistry.applyOp_node_invariant r op hr
    rcases ih (r.applyOp op) h1 with ⟨h2, h3⟩
    exact ⟨h2, h3.trans (ContainerRegistry.applyOp_node_name r op)⟩

/-- Witness for C10: an info registered with a different `node_name` is
stored with the registry's node name. -/
theorem C10_node_name_invariant_witness :
    ({ c8Info with node_name := "test-node" } :
        ContainerInfo).node_name = "test-node" ∧
    (("abc123", { c8Info with node_name := "test-node" }) ∈
      ((ContainerRegistry.new "test-node").runOps
        [RegistryOp.register { c8Info with node_name := "other-node" }]).containers) ∧
    ({ c8Info with node_name := "test-node" } : ContainerInfo).node_name = "test-node" :=
  ⟨rfl, by decide,
   C10_node_name_invariant "test-node"
     [RegistryOp.register { c8Info with node_name := "other-node" }]
     ("abc123", { c8Info with node_name := "test-node" }) (by decide)⟩

theorem stripPref_append (p r : List Char) : stripPref p (p ++ r) = some r := by
  simp [stripPref, List.isPrefixOf_iff_prefix.2 (List.prefix_append p r), List.drop_left]

theorem stripSuff_append (p x : List Char) : stripSuff p (x ++ p) = some x := by
  unfold stripSuff
  rw [if_pos (List.isSuffixOf_iff_suffix.2 (List.suffix_append x p)),
    List.length_append, Nat.add_sub_cancel, List.take_left]

theorem stripPref_eq_none (p s : List Char) (c : Char) (hc : c ∈ p) (hs : c ∉ s) :
    stripPref p s = none := by
  unfold stripPref
  rw [if_neg (fun hpre => hs ((List.isPrefixOf_iff_prefix.1 hpre).subset hc))]

theorem stripSuff_eq_none (p s : List Char) (c : Char) (hc : c ∈ p) (hs : c ∉ s) :
    stripSuff p s = none := by
  unfold stripSuff
  rw [if_neg (fun hsuf => hs ((List.isSuffixOf_iff_suffix.1 hsuf).subset hc))]

theorem isHex64_length {h : List Char} (hh : isHex64 h = true) : h.length = 64 := by
  unfold isHex64 at hh
  simp only [Bool.and_eq_true, beq_iff_eq] at hh
  exact hh.1

theorem isHex64_not_mem {h : List Char} (hh : isHex64 h = true) {c : Char}
    (hc : isHexDigitChar c = false) : c ∉ h := by
  intro hmem
  unfold isHex64 at hh
  simp only [Bool.and_eq_true, beq_iff_eq] at hh
  have h3 := List.all_eq_true.1 hh.2 c hmem
  rw [hc] at h3
  exact Bool.noConfusion h3

theorem orElse_eq_none_iff {α : Type} {a b : Option α} :
    (a <|> b) = none ↔ a = none ∧ b = none := by
  cases a <;> simp

theorem checkPartV2_eq_none_isHex {p : List Char}
    (h : CgroupV2Collector.checkPart p = none) : isHex64 p = false := by
  unfold CgroupV2Collector.checkPart at h
  have h2 := (orElse_eq_none_iff.1 h).2
  cases hb : isHex64 p
  · rfl
  · rw [hb] at h2
    simp at h2

theorem checkPartV1_eq_none_isHex {p : List Char}
    (h : CgroupV1Collector.checkPart p = none) : isHex64 p = false := by
  unfold CgroupV1Collector.checkPart at h
  have h2 := (orElse_eq_none_iff.1 (orElse_eq_none_iff.1 h).2).2
  cases hb : isHex64 p
  · rfl
  · rw [hb] at h2
    simp at h2

theorem findId_eq_none (check : List Char → Option (List Char)) :
    ∀ l : List (List Char), (∀ p ∈ l, check p = none) → findId check l = none := by
  intro l
  induction l with
  | nil => intro _; rfl
  | cons p rest ih =>
    intro hall
    unfold findId
    rw [hall p (List.mem_cons_self p rest)]
    exact ih (fun q hq => hall q (List.mem_cons_of_mem p hq))

theorem findId_cons_of_some (check : List Char → Option (List Char))
    (p : List Char) (rest : List (List Char)) (id : List Char)
    (h : check p = some id) : findId check (p :: rest) = some id := by
  unfold findId
  rw [h]

theorem extractFromParts_leaf (check : List Char → Option (List Char))
    (pre : List (List Char)) (leaf id : List Char) (h : check leaf = some id) :
    extractFromParts check (pre ++ [leaf]) = some id := by
  unfold extractFromParts
  rw [List.reverse_append, List.reverse_singleton, List.singleton_append,
    findId_cons_of_some check leaf pre.reverse id h]

theorem extractFromParts_fallback (check : List Char → Option (List Char))
    (parts : List (List Char)) (hall : ∀ p ∈ parts, check p = none) :
    extractFromParts check parts = parts.reverse.find? (fun p => !p.isEmpty) := by
  unfold extractFromParts
  rw [findId_eq_none check parts.reverse (fun p hp => hall p (List.mem_reverse.1 hp))]

theorem checkPartV2_bare {h : List Char} (hh : isHex64 h = true) :
    CgroupV2Collector.checkPart h = some h := by
  have hp := stripPref_eq_none "crio-".data h 'o' (by decide) (isHex64_not_mem hh (by decide))
  unfold CgroupV2Collector.checkPart
  rw [hp, hh]
  simp

theorem checkPartV2_crio {h : List Char} (hh : isHex64 h = true) :
    CgroupV2Collector.checkPart ("crio-".data ++ h) = some h := by
  have hs := stripSuff_eq_none ".scope".data h '.' (by decide) (isHex64_not_mem hh (by decide))
  unfold CgroupV2Collector.checkPart
  rw [stripPref_append "crio-".data h]
  dsimp only
  rw [hs]
  simp only [Option.getD_none]
  rw [hh]
  simp

theorem checkPartV2_crio_scope {h : List Char} (hh : isHex64 h = true) :
    CgroupV2Collector.checkPart ("crio-".data ++ h ++ ".scope".data) = some h := by
  unfold CgroupV2Collector.checkPart
  rw [List.append_assoc, stripPref_append "crio-".data (h ++ ".scope".data)]
  dsimp only
  rw [stripSuff_append ".scope".data h]
  simp only [Option.getD_some]
  rw [hh]
  simp

theorem checkPartV2_cricd {h : List Char} (hh : isHex64 h = true) :
    CgroupV2Collector.checkPart ("cri-containerd-".data ++ h ++ ".scope".data) = none := by
  have hp : stripPref "crio-".data ("cri-containerd-".data ++ (h ++ ".scope".data)) = none := by
    simp [stripPref, List.isPrefixOf]
  have hhex : isHex64 ("cri-containerd-".data ++ (h ++ ".scope".data)) = false := by
    unfold isHex64
    simp [List.length_append, isHex64_length hh]
  unfold CgroupV2Collector.checkPart
  rw [List.append_assoc, hp, hhex]
  simp

theorem checkPartV1_bare {h : List Char} (hh : isHex64 h = true) :
    CgroupV1Collector.checkPart h = some h := by
  have hs := stripSuff_eq_none ".scope".data h '.' (by decide) (isHex64_not_mem hh (by decide))
  have hp := stripPref_eq_none "crio-".data h 'o' (by decide) (isHex64_not_mem hh (by decide))
  unfold CgroupV1Collector.checkPart
  rw [hs, hp, hh]
  simp

theorem checkPartV1_crio {h : List Char} (hh : isHex64 h = true) :
    CgroupV1Collector.checkPart ("crio-".data ++ h) = some h := by
  have hdot : ('.' : Char) ∉ "crio-".data ++ h := by
    intro hmem
    rcases List.mem_append.1 hmem with hm | hm
    · exact absurd hm (by decide)
    · exact isHex64_not_mem hh (by decide) hm
  have hsA := stripSuff_eq_none ".scope".data ("crio-".data ++ h) '.' (by decide) hdot
  have hs2 := stripSuff_eq_none ".scope".data h '.' (by decide) (isHex64_not_mem hh (by decide))
  unfold CgroupV1Collector.checkPart
  rw [hsA, stripPref_append "crio-".data h]
  dsimp only
  rw [hs2]
  simp only [Option.getD_none]
  rw [hh]
  simp

theorem checkPartV1_crio_scope {h : List Char} (hh : isHex64 h = true) :
    CgroupV1Collector.checkPart ("crio-".data ++ h ++ ".scope".data) = some h := by
  have hsA : stripSuff ".scope".data ("crio-".data ++ (h ++ ".scope".data)) =
      some ("crio-".data ++ h) := by
    have := stripSuff_append ".scope".data ("crio-".data ++ h)
    rwa [List.append_assoc] at this
  have hpA : stripPref "cri-containerd-".data ("crio-".data ++ h) = none := by
    simp [stripPref, List.isPrefixOf]
  unfold CgroupV1Collector.checkPart
  rw [List.append_assoc, hsA]
  dsimp only
  rw [hpA]
  dsimp only
  rw [stripPref_append "crio-".data (h ++ ".scope".data)]
  dsimp only
  rw [stripSuff_append ".scope".data h]
  simp only [Option.getD_some]
  rw [hh]
  simp

theorem checkPartV1_cricd {h : List Char} (hh : isHex64 h = true) :
    CgroupV1Collector.checkPart ("cri-containerd-".data ++ h ++ ".scope".data) = some h := by
  have hsA : stripSuff ".scope".data ("cri-containerd-".data ++ (h ++ ".scope".data)) =
      some ("cri-containerd-".data ++ h) := by
    have := stripSuff_append ".scope".data ("cri-containerd-".data ++ h)
    rwa [List.append_assoc] at this
  unfold CgroupV1Collector.checkPart
  rw [List.append_assoc, hsA]
  dsimp only
  rw [stripPref_append "cri-containerd-".data h]
  dsimp only
  rw [hh]
  simp

/-- **C5 counterexample.**  For the cgroup v2 collector there is no
`cri-containerd-` rule: on a path whose leaf is
`cri-containerd-<64hex>.scope` the extractor falls through to the
fallback and returns the whole leaf (not the 64-hex id), which the
discovery-side 64-hex validation then rejects. -/
theorem C5_counterexample :
    CgroupV2Collector.extract_container_id c5Path ≠ some c5Hex ∧
    CgroupV2Collector.extract_container_id c5Path =
      some ("cri-containerd-".data ++ c5Hex ++ ".scope".data) ∧
    ContainerWatcher.try_parse_id true c5Path = none := by
  decide

/-- **C5 (amended).**  For the cgroup **v1** collector,
`extract_container_id` maps a path whose leaf is a bare 64-hex id,
`crio-<64hex>` with or without `.scope`, or `cri-containerd-<64hex>.scope`
to `Some` of the 64-hex id.  The **v2** collector does the same for the
bare and `crio-` shapes, but has no `cri-containerd-` rule: if no other
path component matches a pattern, it returns the whole
`cri-containerd-<64hex>.scope` leaf via the fallback, and discovery
rejects it (the id is not 64-hex).  Finally, when no component of the
path matches any recognized pattern, discovery rejects the directory for
both collectors: the fallback component is never 64-hex. -/
theorem C5_extract_container_id_shapes :
    (∀ (path : List Char) (pre : List (List Char)) (h : List Char),
      isHex64 h = true → splitOnChar '/' path = pre ++ [h] →
      CgroupV1Collector.extract_container_id path = some h ∧
      CgroupV2Collector.extract_container_id path = some h) ∧
    (∀ (path : List Char) (pre : List (List Char)) (h : List Char),
      isHex64 h = true → splitOnChar '/' path = pre ++ ["crio-".data ++ h] →
      CgroupV1Collector.extract_container_id path = some h ∧
      CgroupV2Collector.extract_container_id path = some h) ∧
    (∀ (path : List Char) (pre : List (List Char)) (h : List Char),
      isHex64 h = true →
      splitOnChar '/' path = pre ++ ["crio-".data ++ h ++ ".scope".data] →
      CgroupV1Collector.extract_container_id path = some h ∧
      CgroupV2Collector.extract_container_id path = some h) ∧
    (∀ (path : List Char) (pre : List (List Char)) (h : List Char),
      isHex64 h = true →
      splitOnChar '/' path = pre ++ ["cri-containerd-".data ++ h ++ ".scope".data] →
      CgroupV1Collector.extract_container_id path = some h) ∧
    (∀ (path : List Char) (pre : List (List Char)) (h : List Char),
      isHex64 h = true →
      (∀ p ∈ pre, CgroupV2Collector.checkPart p = none) →
      splitOnChar '/' path = pre ++ ["cri-containerd-".data ++ h ++ ".scope".data] →
      CgroupV2Collector.extract_container_id path =
        some ("cri-containerd-".data ++ h ++ ".scope".data) ∧
      ContainerWatcher.try_parse_id true path = none) ∧
    (∀ path : List Char,
      (∀ p ∈ splitOnChar '/' path, CgroupV1Collector.checkPart p = none) →
      ContainerWatcher.try_parse_id false path = none) ∧
    (∀ path : List Char,
      (∀ p ∈ splitOnChar '/' path, CgroupV2Collector.checkPart p = none) →
      ContainerWatcher.try_parse_id true path = none) := by
  refine ⟨?_, ?_, ?_, ?_, ?_, ?_, ?_⟩
  · intro path pre h hh hsplit
    constructor
    · unfold CgroupV1Collector.extract_container_id
      rw [hsplit]
      exact extractFromParts_leaf _ pre h h (checkPartV1_bare hh)
    · unfold CgroupV2Collector.extract_container_id
      rw [hsplit]
      exact extractFromParts_leaf _ pre h h (checkPartV2_bare hh)
  · intro path pre h hh hsplit
    constructor
    · unfold CgroupV1Collector.extract_container_id
      rw [hsplit]
      exact extractFromParts_leaf _ pre _ h (checkPartV1_crio hh)
    · unfold CgroupV2Collector.extract_container_id
      rw [hsplit]
      exact extractFromParts_leaf _ pre _ h (checkPartV2_crio hh)
  · intro path pre h hh hsplit
    constructor
    · unfold CgroupV1Collector.extract_container_id
      rw [hsplit]
      exact extractFromParts_leaf _ pre _ h (checkPartV1_crio_scope hh)
    · unfold CgroupV2Collector.extract_container_id
      rw [hsplit]
      exact extractFromParts_leaf _ pre _ h (checkPartV2_crio_scope hh)
  · intro path pre h hh hsplit
    unfold CgroupV1Collector.extract_container_id
    rw [hsplit]
    exact extractFromParts_leaf _ pre _ h (checkPartV1_cricd hh)
  · intro path pre h hh hpre hsplit
    have hleafnone := checkPartV2_cricd hh
    have hall : ∀ p ∈ pre ++ ["cri-containerd-".data ++ h ++ ".scope".data],
        CgroupV2Collector.checkPart p = none := by
      intro p hp
      rcases List.mem_append.1 hp with hp | hp
      · exact hpre p hp
      · rcases List.mem_singleton.1 hp with rfl
        exact hleafnone
    have hext : CgroupV2Collector.extract_container_id path =
        some ("cri-containerd-".data ++ h ++ ".scope".data) := by
      unfold CgroupV2Collector.extract_container_id
      rw [hsplit, extractFromParts_fallback _ _ hall, List.reverse_append,
        List.reverse_singleton, List.singleton_append]
      rw [List.find?_cons_of_pos]
      simp [List.append_assoc]
    refine ⟨hext, ?_⟩
    unfold ContainerWatcher.try_parse_id
    rw [if_pos rfl, hext]
    have hhex : isHex64 ("cri-containerd-".data ++ h ++ ".scope".data) = false := by
      unfold isHex64
      simp [List.length_append, isHex64_length hh]
    dsimp only
    rw [hhex]
    simp
  · intro path hall
    unfold ContainerWatcher.try_parse_id
    rw [if_neg (by simp)]
    unfold CgroupV1Collector.extract_container_id
    rw [extractFromParts_fallback _ _ hall]
    cases hf : (splitOnChar '/' path).reverse.find? (fun p => !p.isEmpty) with
    | none => rfl
    | some p0 =>
      have hp0 := List.mem_of_find?_eq_some hf
      have hnone := hall p0 (List.mem_reverse.1 hp0)
      have hhex := checkPartV1_eq_none_isHex hnone
      dsimp only
      rw [hhex]
      simp
  · intro path hall
    unfold ContainerWatcher.try_parse_id
    rw [if_pos rfl]
    unfold CgroupV2Collector.extract_container_id
    rw [extractFromParts_fallback _ _ hall]
    cases hf : (splitOnChar '/' path).reverse.find? (fun p => !p.isEmpty) with
    | none => rfl
    | some p0 =>
      have hp0 := List.mem_of_find?_eq_some hf
      have hnone := hall p0 (List.mem_reverse.1 hp0)
      have hhex := checkPartV2_eq_none_isHex hnone
      dsimp only
      rw [hhex]
      simp

/-- Witness for C5 (amended): a concrete crio-style path for both
collectors. -/
theorem C5_extract_container_id_shapes_witness :
    (isHex64 c5Hex = true ∧
     splitOnChar '/' ("/kubepods.slice/crio-".data ++ c5Hex ++ ".scope".data) =
       [[], "kubepods.slice".data] ++ ["crio-".data ++ c5Hex ++ ".scope".data]) ∧
    (CgroupV1Collector.extract_container_id
        ("/kubepods.slice/crio-".data ++ c5Hex ++ ".scope".data) = some c5Hex ∧
     CgroupV2Collector.extract_container_id
        ("/kubepods.slice/crio-".data ++ c5Hex ++ ".scope".data) = some c5Hex) :=
  ⟨⟨by decide, by decide⟩,
   C5_extract_container_id_shapes.2.2.1
     ("/kubepods.slice/crio-".data ++ c5Hex ++ ".scope".data)
     [[], "kubepods.slice".data] c5Hex (by decide) (by decide)⟩

theorem getLast?_some_mem {α : Type} : ∀ (l : List α) (z : α), l.getLast? = some z → z ∈ l := by
  intro l
  induction l with
  | nil => intro z hz; cases hz
  | cons a t ih =>
    intro z hz
    cases t with
    | nil =>
      cases hz
      exact List.mem_singleton_self a
    | cons b t2 =>
      rw [List.getLast?_cons_cons] at hz
      exact List.mem_cons_of_mem a (ih z hz)

theorem exists_getLast?_cons {α : Type} (a : α) :
    ∀ l : List α, ∃ z, (a :: l).getLast? = some z := by
  intro l
  induction l generalizing a with
  | nil => exact ⟨a, rfl⟩
  | cons b t ih =>
    rcases ih b with ⟨z, hz⟩
    exact ⟨z, by rw [List.getLast?_cons_cons]; exact hz⟩

theorem le_getLast_fst_of_sorted :
    ∀ l : List (ℤ × ℕ), l.Pairwise (fun a b => a.1 ≤ b.1) →
      ∀ x ∈ l, x.1 ≤ ((l.getLast?.map Prod.fst).getD 0) := by
  intro l
  induction l with
  | nil => intro _ x hx; cases hx
  | cons a t ih =>
    intro hp x hx
    rcases List.pairwise_cons.1 hp with ⟨ha, ht⟩
    cases t with
    | nil =>
      rcases List.mem_singleton.1 hx with rfl
      simp [List.getLast?]
    | cons b t2 =>
      rw [List.getLast?_cons_cons]
      rcases List.mem_cons.1 hx with rfl | hx
      · rcases exists_getLast?_cons b t2 with ⟨z, hz⟩
        rw [hz]
        simpa using ha z (getLast?_some_mem _ z hz)
      · exact ih ht x hx

theorem LeakDetector.filter_window_eq_of_sorted (d : LeakDetector)
    (samples : List (ℤ × ℕ)) (hsorted : samples.Pairwise (fun a b => a.1 ≤ b.1)) :
    samples.filter (fun p =>
      decide ((samples.getLast?.map Prod.fst).getD 0 - (d.window_size : ℤ) ≤ p.1 ∧
        p.1 ≤ (samples.getLast?.map Prod.fst).getD 0)) = d.filter_window samples := by
  unfold LeakDetector.filter_window
  cases hl : samples.getLast? with
  | none =>
    have : samples = [] := List.getLast?_eq_none_iff.1 hl
    subst this
    rfl
  | some z =>
    apply List.filter_congr
    intro x hx
    have hxle : x.1 ≤ z.1 := by
      have hg := le_getLast_fst_of_sorted samples hsorted x hx
      rw [hl] at hg
      simpa using hg
    rw [decide_eq_decide]
    exact ⟨fun h => h.1, fun h => ⟨h, hxle⟩⟩

theorem LeakDetector.filter_window_length_le (d : LeakDetector) (samples : List (ℤ × ℕ)) :
    (d.filter_window samples).length ≤ samples.length := by
  unfold LeakDetector.filter_window
  cases samples.getLast? with
  | none => simp
  | some z => exact List.length_filter_le _ _

/-- **C6.**  For samples sorted by timestamp, `LeakDetector::detect`
returns `None` exactly when fewer than 10 samples lie inside the window
`[latest_ts - window_size, latest_ts]`, or the OLS slope of memory
versus (rebased) time over those window samples is `≤ slope_threshold`,
or the fraction of adjacent pairs with non-decreasing memory is
`< 0.95`; when it returns `Some`, the anomaly's `slope_bytes_per_sec` is
that slope and its `confidence` is `R² · monotonicity`. -/
theorem C6_detect_characterization (d : LeakDetector) (samples : List (ℤ × ℕ))
    (hsorted : samples.Pairwise (fun a b => a.1 ≤ b.1)) :
    (LeakDetector.detect d samples = none ↔
      (samples.filter (fun p =>
        decide ((samples.getLast?.map Prod.fst).getD 0 - (d.window_size : ℤ) ≤ p.1 ∧
          p.1 ≤ (samples.getLast?.map Prod.fst).getD 0))).length < 10 ∨
      LeakDetector.linear_regression_slope (d.filter_window samples) ≤ d.slope_threshold ∨
      LeakDetector.calculate_monotonicity (d.filter_window samples) < 95 / 100) ∧
    (∀ a, LeakDetector.detect d samples = some a →
      a.slope_bytes_per_sec = LeakDetector.linear_regression_slope (d.filter_window samples) ∧
      a.confidence =
        LeakDetector.calculate_r_squared (d.filter_window samples)
          (LeakDetector.linear_regression_slope (d.filter_window samples)) *
        LeakDetector.calculate_monotonicity (d.filter_window samples)) := by
  rw [LeakDetector.filter_window_eq_of_sorted d samples hsorted]
  unfold LeakDetector.detect
  simp only [MIN_SAMPLES_FOR_DETECTION, MONOTONICITY_THRESHOLD]
  split_ifs with h1 h2 h3 h4
  · refine ⟨⟨fun _ => ?_, fun _ => rfl⟩, fun a ha => by cases ha⟩
    left
    have := LeakDetector.filter_window_length_le d samples
    omega
  · refine ⟨⟨fun _ => ?_, fun _ => rfl⟩, fun a ha => by cases ha⟩
    left
    omega
  · exact ⟨⟨fun _ => Or.inr (Or.inl h3), fun _ => rfl⟩, fun a ha => by cases ha⟩
  · exact ⟨⟨fun _ => Or.inr (Or.inr h4), fun _ => rfl⟩, fun a ha => by cases ha⟩
  · refine ⟨iff_of_false (by simp) ?_, fun a ha => ?_⟩
    · intro hdisj
      rcases hdisj with hd | hd | hd
      · omega
      · exact absurd hd h3
      · exact absurd hd h4
    · injection ha with ha2
      subst ha2
      exact ⟨rfl, rfl⟩

/-- Witness for C6: the default detector on ten flat one-per-minute
samples. -/
theorem C6_detect_characterization_witness :
    c6Samples.Pairwise (fun a b => a.1 ≤ b.1) ∧
    ((LeakDetector.detect LeakDetector.default c6Samples = none ↔
      (c6Samples.filter (fun p =>
        decide ((c6Samples.getLast?.map Prod.fst).getD 0 -
            (LeakDetector.default.window_size : ℤ) ≤ p.1 ∧
          p.1 ≤ (c6Samples.getLast?.map Prod.fst).getD 0))).length < 10 ∨
      LeakDetector.linear_regression_slope
          (LeakDetector.default.filter_window c6Samples) ≤
        LeakDetector.default.slope_threshold ∨
      LeakDetector.calculate_monotonicity
          (LeakDetector.default.filter_window c6Samples) < 95 / 100) ∧
    (∀ a, LeakDetector.detect LeakDetector.default c6Samples = some a →
      a.slope_bytes_per_sec =
        LeakDetector.linear_regression_slope
          (LeakDetector.default.filter_window c6Samples) ∧
      a.confidence =
        LeakDetector.calculate_r_squared (LeakDetector.default.filter_window c6Samples)
          (LeakDetector.linear_regression_slope
            (LeakDetector.default.filter_window c6Samples)) *
        LeakDetector.calculate_monotonicity
          (LeakDetector.default.filter_window c6Samples))) :=
  ⟨by decide, C6_detect_characterization LeakDetector.default c6Samples (by decide)⟩

theorem sum_getD_eq_sum (v : List ℚ) :
    ∑ i ∈ Finset.range v.length, v.getD i 0 = v.sum := by
  induction v with
  | nil => simp
  | cons a t ih =>
    rw [List.length_cons, Finset.sum_range_succ']
    simp only [List.getD_cons_succ, List.getD_cons_zero]
    rw [ih, List.sum_cons, add_comm]

theorem getD_reverse (v : List ℚ) (i : ℕ) (hi : i < v.length) :
    v.reverse.getD i 0 = v.getD (v.length - 1 - i) 0 := by
  rw [List.getD_eq_getElem?_getD, List.getD_eq_getElem?_getD]
  rw [List.getElem?_reverse (by simpa using hi)]

theorem linear_regression_slope_reverse (v : List ℚ) :
    linear_regression_slope v.reverse = - linear_regression_slope v := by
  by_cases h2 : v.length < 2
  · rw [linear_regression_slope, linear_regression_slope,
      if_pos (by simpa using h2), if_pos h2]
    exact neg_zero.symm
  · have hn1 : 1 ≤ v.length := by omega
    rw [linear_regression_slope, linear_regression_slope, List.length_reverse,
      if_neg h2, if_neg h2]
    have hxy : (∑ i ∈ Finset.range v.length, (i : ℚ) * v.reverse.getD i 0)
        = ((v.length : ℚ) - 1) * v.sum
          - ∑ i ∈ Finset.range v.length, (i : ℚ) * v.getD i 0 := by
      have step1 : (∑ i ∈ Finset.range v.length, (i : ℚ) * v.reverse.getD i 0)
          = ∑ i ∈ Finset.range v.length, (i : ℚ) * v.getD (v.length - 1 - i) 0 := by
        apply Finset.sum_congr rfl
        intro i hi
        rw [getD_reverse v i (Finset.mem_range.1 hi)]
      rw [step1]
      have step2 : (∑ i ∈ Finset.range v.length, (i : ℚ) * v.getD (v.length - 1 - i) 0)
          = ∑ i ∈ Finset.range v.length, ((v.length - 1 - i : ℕ) : ℚ) * v.getD i 0 := by
        have := Finset.sum_range_reflect
          (fun j => ((v.length - 1 - j : ℕ) : ℚ) * v.getD j 0) v.length
        rw [← this]
        apply Finset.sum_congr rfl
        intro i hi
        have hi2 := Finset.mem_range.1 hi
        have : v.length - 1 - (v.length - 1 - i) = i := by omega
        rw [this]
      rw [step2]
      have step3 : (∑ i ∈ Finset.range v.length, ((v.length - 1 - i : ℕ) : ℚ) * v.getD i 0)
          = ∑ i ∈ Finset.range v.length, (((v.length : ℚ) - 1) - i) * v.getD i 0 := by
        apply Finset.sum_congr rfl
        intro i hi
        have hi2 := Finset.mem_range.1 hi
        congr 1
        rw [Nat.sub_sub]
        push_cast [Nat.cast_sub (by omega : 1 + i ≤ v.length)]
        ring
      rw [step3]
      have expand : ∀ i ∈ Finset.range v.length,
          (((v.length : ℚ) - 1) - i) * v.getD i 0
          = ((v.length : ℚ) - 1) * v.getD i 0 - (i : ℚ) * v.getD i 0 := by
        intro i _
        ring
      rw [Finset.sum_congr rfl expand, Finset.sum_sub_distrib, ← Finset.mul_sum,
        sum_getD_eq_sum]
    have hsum : v.reverse.sum = v.sum := by
      simp [List.sum_reverse]
    rw [hxy, hsum]
    have hsx : (∑ i ∈ Finset.range v.length, (i : ℚ)) * 2
        = (v.length : ℚ) * ((v.length : ℚ) - 1) := by
      have h := Finset.sum_range_id_mul_two v.length
      have h2 : ((∑ i ∈ Finset.range v.length, i : ℕ) : ℚ) * 2
          = ((v.length * (v.length - 1) : ℕ) : ℚ) := by
        exact_mod_cast congrArg (fun k : ℕ => (k : ℚ)) h
      push_cast [Nat.cast_sub hn1] at h2
      simpa using h2
    by_cases hd : |(v.length : ℚ) * (∑ i ∈ Finset.range v.length, (i : ℚ) ^ 2)
        - (∑ i ∈ Finset.range v.length, (i : ℚ)) ^ 2| < f64EPSILON
    · rw [if_pos hd, if_pos hd]
      exact neg_zero.symm
    · rw [if_neg hd, if_neg hd]
      have hAB : (v.length : ℚ) * (((v.length : ℚ) - 1) * v.sum
            - ∑ i ∈ Finset.range v.length, (i : ℚ) * v.getD i 0)
          - (∑ i ∈ Finset.range v.length, (i : ℚ)) * v.sum
          = -((v.length : ℚ) * (∑ i ∈ Finset.range v.length, (i : ℚ) * v.getD i 0)
            - (∑ i ∈ Finset.range v.length, (i : ℚ)) * v.sum) := by
        linear_combination (-v.sum) * hsx
      rw [hAB, neg_div]

theorem getD_mono_of_pairwise (v : List ℚ) (hp : v.Pairwise (· ≤ ·))
    (i j : ℕ) (hij : i ≤ j) (hj : j < v.length) : v.getD i 0 ≤ v.getD j 0 := by
  rcases Nat.lt_or_ge i j with hlt | hge
  · have hi : i < v.length := lt_trans hlt hj
    rw [List.getD_eq_getElem v 0 hi, List.getD_eq_getElem v 0 hj]
    exact List.pairwise_iff_get.1 hp ⟨i, hi⟩ ⟨j, hj⟩ hlt
  · have : i = j := le_antisymm hij hge
    subst this
    exact le_refl _

theorem linear_regression_slope_nonneg_of_monotone (v : List ℚ)
    (hp : v.Pairwise (· ≤ ·)) : 0 ≤ linear_regression_slope v := by
  rw [linear_regression_slope]
  by_cases h2 : v.length < 2
  · rw [if_pos h2]
  · rw [if_neg h2]
    by_cases hd : |(v.length : ℚ) * (∑ i ∈ Finset.range v.length, (i : ℚ) ^ 2)
        - (∑ i ∈ Finset.range v.length, (i : ℚ)) ^ 2| < f64EPSILON
    · rw [if_pos hd]
    · rw [if_neg hd]
      apply div_nonneg
      · have hM : MonovaryOn (fun i : ℕ => (i : ℚ))
            (fun i : ℕ => v.getD i 0) (Finset.range v.length) := by
          intro i hi j hj hlt
          by_contra hij
          push_neg at hij
          have hji : j ≤ i := by exact_mod_cast le_of_lt hij
          have := getD_mono_of_pairwise v hp j i hji (Finset.mem_range.1 hi)
          exact absurd hlt (not_lt.2 this)
        have hcheb := hM.sum_mul_sum_le_card_mul_sum
        rw [Finset.card_range] at hcheb
        have hs : ∑ i ∈ Finset.range v.length, v.getD i 0 = v.sum := sum_getD_eq_sum v
        have hle : (∑ i ∈ Finset.range v.length, (i : ℚ)) * v.sum
            ≤ (v.length : ℚ) * ∑ i ∈ Finset.range v.length, (i : ℚ) * v.getD i 0 := by
          rw [← hs]
          exact_mod_cast hcheb
        linarith
      · have hcs := sq_sum_le_card_mul_sum_sq
          (s := Finset.range v.length) (f := fun i : ℕ => (i : ℚ))
        rw [Finset.card_range] at hcs
        have hle : ((v.length : ℕ) : ℚ) * ∑ i ∈ Finset.range v.length, (i : ℚ) ^ 2
            ≥ (∑ i ∈ Finset.range v.length, (i : ℚ)) ^ 2 := by exact_mod_cast hcs
        linarith

/-- **C4 counterexample.**  `extract` reverses the samples
(`iter().rev().take(window)`) before the regression, so a strictly
increasing working-set series yields a *negative* trend: on ten samples
rising 100 MB each, `mem_trend` is `-1`, contradicting the claimed
`mem_trend ≥ 0` (and the claimed equality with the chronological
slope, which would be positive here). -/
theorem C4_counterexample :
    (c4Metrics.map (·.memory_working_set_bytes)).Pairwise (· < ·) ∧
    (FeatureExtractor.extract (fun x => x) (FeatureExtractor.new 100) c4Metrics).map
      FeatureVector.mem_trend = some (-1) ∧ ((-1 : ℚ) < 0) := by
  refine ⟨by decide, ?_, by norm_num⟩
  unfold FeatureExtractor.extract
  rw [if_neg (by decide)]
  dsimp only
  rw [Option.map_some']
  congr 1
  have hsamp : c4Metrics.reverse.take (FeatureExtractor.new 100).window_size =
      [c4m 9, c4m 8, c4m 7, c4m 6, c4m 5, c4m 4, c4m 3, c4m 2, c4m 1, c4m 0] := by decide
  rw [hsamp]
  have hmv : [c4m 9, c4m 8, c4m 7, c4m 6, c4m 5, c4m 4, c4m 3, c4m 2, c4m 1, c4m 0].map
      (fun m => ((m.memory_working_set_bytes : ℕ) : ℚ)) =
      [1000000000, 900000000, 800000000, 700000000, 600000000,
       500000000, 400000000, 300000000, 200000000, 100000000] := by
    norm_num [c4m, scenarioMetrics]
  rw [hmv]
  have hslope : linear_regression_slope
      [1000000000, 900000000, 800000000, 700000000, 600000000,
       500000000, 400000000, 300000000, 200000000, 100000000] = -100000000 := by
    unfold linear_regression_slope
    rw [if_neg (by norm_num)]
    norm_num [Finset.sum_range_succ, f64EPSILON, List.getD]
  unfold FeatureExtractor.calculate_memory_trend
  rw [if_neg (by norm_num), hslope]
  unfold FeatureExtractor.new clampQ
  norm_num

/-- **C4 (amended).**  For every extractor with a positive memory bound
and every metrics slice accepted by `extract` (≥ 10 samples), the
`mem_trend` feature equals the least-squares slope over the most recent
`window_size` samples taken in *reverse-chronological* order —
equivalently, **minus** the chronological slope — divided by
`max_memory_bytes / 3600` and clamped to `[-1, 1]`; in particular a
non-decreasing (so also a strictly increasing) working-set series yields
`mem_trend ≤ 0`. -/
theorem C4_mem_trend (tanhQ : ℚ → ℚ) (e : FeatureExtractor)
    (metrics : List ContainerMetrics) (fv : FeatureVector)
    (hmax : 0 < e.max_memory_bytes)
    (hex : FeatureExtractor.extract tanhQ e metrics = some fv) :
    fv.mem_trend = clampQ
        (-(linear_regression_slope
            (((metrics.reverse.take e.window_size).map
              (fun m => ((m.memory_working_set_bytes : ℕ) : ℚ))).reverse))
          / ((e.max_memory_bytes : ℚ) / 3600)) (-1) 1 ∧
    ((((metrics.reverse.take e.window_size).map
        (fun m => ((m.memory_working_set_bytes : ℕ) : ℚ))).reverse).Pairwise (· ≤ ·) →
      fv.mem_trend ≤ 0) := by
  unfold FeatureExtractor.extract at hex
  by_cases hlen : metrics.length < MIN_SAMPLES
  · rw [if_pos hlen] at hex
    cases hex
  · rw [if_neg hlen] at hex
    dsimp only at hex
    injection hex with hfv
    subst hfv
    dsimp only
    set mv := (metrics.reverse.take e.window_size).map
      (fun m => ((m.memory_working_set_bytes : ℕ) : ℚ)) with hmvdef
    have hslope_rev : linear_regression_slope mv = -(linear_regression_slope mv.reverse) := by
      have h := linear_regression_slope_reverse mv.reverse
      rwa [List.reverse_reverse] at h
    have heq : FeatureExtractor.calculate_memory_trend e mv =
        clampQ (-(linear_regression_slope mv.reverse) /
          ((e.max_memory_bytes : ℚ) / 3600)) (-1) 1 := by
      unfold FeatureExtractor.calculate_memory_trend
      by_cases h2 : mv.length < 2
      · rw [if_pos h2]
        have hz : linear_regression_slope mv.reverse = 0 := by
          rw [linear_regression_slope, if_pos (by simpa using h2)]
        rw [hz]
        norm_num [clampQ]
      · rw [if_neg h2, hslope_rev]
    refine ⟨heq, fun hmono => ?_⟩
    rw [heq]
    have hs := linear_regression_slope_nonneg_of_monotone mv.reverse hmono
    have hMpos : (0 : ℚ) < (e.max_memory_bytes : ℚ) / 3600 := by
      have h0 : (0 : ℚ) < (e.max_memory_bytes : ℚ) := by exact_mod_cast hmax
      positivity
    have hq : -(linear_regression_slope mv.reverse) /
        ((e.max_memory_bytes : ℚ) / 3600) ≤ 0 := by
      rw [neg_div]
      exact neg_nonpos.2 (div_nonneg hs hMpos.le)
    exact le_trans (min_le_left _ _) (max_le hq (by norm_num))

/-- Witness for C4 (amended): the concrete increasing series. -/
theorem C4_mem_trend_witness :
    (0 < (FeatureExtractor.new 100).max_memory_bytes ∧
     FeatureExtractor.extract (fun x => x) (FeatureExtractor.new 100) c4Metrics =
       some ((FeatureExtractor.extract (fun x => x)
         (FeatureExtractor.new 100) c4Metrics).getD
           ⟨0, 0, 0, 0, 0, 0, 0, 0, 0, 0, 0, 0⟩)) ∧
    (((FeatureExtractor.extract (fun x => x) (FeatureExtractor.new 100) c4Metrics).getD
        ⟨0, 0, 0, 0, 0, 0, 0, 0, 0, 0, 0, 0⟩).mem_trend = clampQ
        (-(linear_regression_slope
            (((c4Metrics.reverse.take (FeatureExtractor.new 100).window_size).map
              (fun m => ((m.memory_working_set_bytes : ℕ) : ℚ))).reverse))
          / (((FeatureExtractor.new 100).max_memory_bytes : ℚ) / 3600)) (-1) 1 ∧
     ((((c4Metrics.reverse.take (FeatureExtractor.new 100).window_size).map
         (fun m => ((m.memory_working_set_bytes : ℕ) : ℚ))).reverse).Pairwise (· ≤ ·) →
       ((FeatureExtractor.extract (fun x => x) (FeatureExtractor.new 100) c4Metrics).getD
         ⟨0, 0, 0, 0, 0, 0, 0, 0, 0, 0, 0, 0⟩).mem_trend ≤ 0)) :=
  ⟨⟨by decide, rfl⟩,
   C4_mem_trend (fun x => x) (FeatureExtractor.new 100) c4Metrics
     ((FeatureExtractor.extract (fun x => x) (FeatureExtractor.new 100) c4Metrics).getD
       ⟨0, 0, 0, 0, 0, 0, 0, 0, 0, 0, 0, 0⟩) (by decide) rfl⟩

theorem decodeCM_encodeCM (m : ContainerMetrics) : decodeCM (encodeCM m) = some m := by
  cases m with
  | mk cid pod ns dep ts cpu thr mu mws mc rx tx =>
    cases dep with
    | none =>
      simp [encodeCM, decodeCM, jLookup, jStr?, jOptStr?, jInt?, jNat?, jNum?, List.find?]
    | some d =>
      simp [encodeCM, decodeCM, jLookup, jStr?, jOptStr?, jInt?, jNat?, jNum?, List.find?]

theorem mapM_decodeCM_encodeCM (ms : List ContainerMetrics) :
    (ms.map encodeCM).mapM decodeCM = some ms := by
  induction ms with
  | nil => rfl
  | cons m rest ih =>
    rw [List.map_cons, List.mapM_cons, decodeCM_encodeCM, ih]
    rfl

/-- **C9.**  Saving a buffer's contents to disk and loading that file
into a fresh buffer yields exactly the same sequence of
`ContainerMetrics`, in the same order (the `buffered_at` stamps are
reset to load time, which the sequence does not include). -/
theorem C9_save_load_roundtrip (b fresh : MetricsBuffer) (now : ℤ)
    (hfresh : fresh.buffer = []) :
    MetricsBuffer.load_from_disk (MetricsBuffer.save_to_disk b) now fresh =
      some { fresh with
        buffer := (b.buffer.map (·.metrics)).map
          (fun m => { metrics := m, buffered_at := now }) } ∧
    ∀ loaded, MetricsBuffer.load_from_disk (MetricsBuffer.save_to_disk b) now fresh =
        some loaded →
      loaded.buffer.map (·.metrics) = b.buffer.map (·.metrics) := by
  have hload : MetricsBuffer.load_from_disk (MetricsBuffer.save_to_disk b) now fresh =
      some { fresh with
        buffer := (b.buffer.map (·.metrics)).map
          (fun m => { metrics := m, buffered_at := now }) } := by
    unfold MetricsBuffer.load_from_disk MetricsBuffer.save_to_disk
    dsimp only
    rw [mapM_decodeCM_encodeCM]
    rw [hfresh]
    rfl
  refine ⟨hload, fun loaded hl => ?_⟩
  rw [hload] at hl
  injection hl with hl2
  subst hl2
  simp [List.map_map]

/-- Witness for C9: round-tripping a one-entry buffer through a fresh
two-slot buffer. -/
theorem C9_save_load_roundtrip_witness :
    (MetricsBuffer.new 10 2).buffer = [] ∧
    (MetricsBuffer.load_from_disk (MetricsBuffer.save_to_disk c3Buffer) 7
        (MetricsBuffer.new 10 2) =
      some { MetricsBuffer.new 10 2 with
        buffer := (c3Buffer.buffer.map (·.metrics)).map
          (fun m => { metrics := m, buffered_at := 7 }) } ∧
     ∀ loaded, MetricsBuffer.load_from_disk (MetricsBuffer.save_to_disk c3Buffer) 7
          (MetricsBuffer.new 10 2) = some loaded →
        loaded.buffer.map (·.metrics) = c3Buffer.buffer.map (·.metrics)) :=
  ⟨rfl, C9_save_load_roundtrip c3Buffer (MetricsBuffer.new 10 2) 7 rfl⟩
